import Mathlib

/-!
Verification development for the scheme-extraction pipeline.

The definitions below are a shallow embedding of the pipeline code:

* `SchemeType`, `SchemeSubType`, `DiscountType` — the closed enumerations of
  `src/models.py`, together with the string-validation step that the pydantic
  model performs on raw values.
* `Json` — the value space of parsed model output (`json.loads` results);
  `parseJson` is a strict JSON reader standing for `json.loads`.
* `mapToSchemeHeaderD` — `DSPySchemeExtractor._map_to_scheme_header` fused
  with pydantic validation of the constructed `SchemeHeader`.
* `parseSchemesJsonD` — `DSPySchemeExtractor._parse_schemes_json`
  (fence stripping, JSON parse, per-record defaulting, validate-or-drop loop).
* `extractD` — `DSPySchemeExtractor.extract`, with the chain-of-thought
  attempt abstracted as a value that is either a result dictionary or an
  uncaught exception.
* `fingerprint` — the `scheme_id` computation of
  `build_scheme_header.py::build_scheme_header`, over a real MD5.

Machine peculiarities of the Python source are preserved: dictionary-`get`
semantics with key-presence tests, the truthiness (`or` / `if x:`) fallbacks,
and the `datetime.now` default factory (modelled as an explicit clock
argument).
-/

namespace SchemeExtraction

/-- Scheme type classification (`src/models.py::SchemeType`). -/
inductive SchemeType where
  | BUY_SIDE
  | SELL_SIDE
  | ONE_OFF
  | OTHER
deriving DecidableEq, Repr

/-- Scheme sub-type classification (`src/models.py::SchemeSubType`). -/
inductive SchemeSubType where
  | PERIODIC_CLAIM
  | PDC
  | PUC_FDC
  | COUPON
  | SUPER_COIN
  | PREXO
  | BANK_OFFER
  | LIFESTYLE
  | ONE_OFF
  | OTHER
deriving DecidableEq, Repr

/-- Discount type classification (`src/models.py::DiscountType`). -/
inductive DiscountType where
  | PERCENTAGE
  | FLAT
  | SLAB
  | OTHER
deriving DecidableEq, Repr

/-- String value of a scheme type, as serialized by the `str`-valued enum. -/
def SchemeType.toStr : SchemeType → String
  | .BUY_SIDE => "BUY_SIDE"
  | .SELL_SIDE => "SELL_SIDE"
  | .ONE_OFF => "ONE_OFF"
  | .OTHER => "OTHER"

/-- String value of a scheme sub-type. -/
def SchemeSubType.toStr : SchemeSubType → String
  | .PERIODIC_CLAIM => "PERIODIC_CLAIM"
  | .PDC => "PDC"
  | .PUC_FDC => "PUC_FDC"
  | .COUPON => "COUPON"
  | .SUPER_COIN => "SUPER_COIN"
  | .PREXO => "PREXO"
  | .BANK_OFFER => "BANK_OFFER"
  | .LIFESTYLE => "LIFESTYLE"
  | .ONE_OFF => "ONE_OFF"
  | .OTHER => "OTHER"

/-- String value of a discount type. -/
def DiscountType.toStr : DiscountType → String
  | .PERCENTAGE => "PERCENTAGE"
  | .FLAT => "FLAT"
  | .SLAB => "SLAB"
  | .OTHER => "OTHER"

/-- Pydantic validation of a raw string against `SchemeType`: only the exact
enumeration values are accepted. -/
def SchemeType.ofStr : String → Option SchemeType
  | "BUY_SIDE" => some .BUY_SIDE
  | "SELL_SIDE" => some .SELL_SIDE
  | "ONE_OFF" => some .ONE_OFF
  | "OTHER" => some .OTHER
  | _ => none

/-- Pydantic validation of a raw string against `SchemeSubType`. -/
def SchemeSubType.ofStr : String → Option SchemeSubType
  | "PERIODIC_CLAIM" => some .PERIODIC_CLAIM
  | "PDC" => some .PDC
  | "PUC_FDC" => some .PUC_FDC
  | "COUPON" => some .COUPON
  | "SUPER_COIN" => some .SUPER_COIN
  | "PREXO" => some .PREXO
  | "BANK_OFFER" => some .BANK_OFFER
  | "LIFESTYLE" => some .LIFESTYLE
  | "ONE_OFF" => some .ONE_OFF
  | "OTHER" => some .OTHER
  | _ => none

/-- Pydantic validation of a raw string against `DiscountType`. -/
def DiscountType.ofStr : String → Option DiscountType
  | "PERCENTAGE" => some .PERCENTAGE
  | "FLAT" => some .FLAT
  | "SLAB" => some .SLAB
  | "OTHER" => some .OTHER
  | _ => none

/-- A calendar date, the target of pydantic's `date` parsing. -/
structure PyDate where
  year : Nat
  month : Nat
  day : Nat
deriving DecidableEq, Repr

/-- Gregorian leap-year test used by `datetime.date` validity. -/
def isLeapYear (y : Nat) : Bool :=
  (y % 4 == 0 && y % 100 != 0) || y % 400 == 0

/-- Number of days in a month of a given year. -/
def daysInMonth (y m : Nat) : Nat :=
  if m == 2 then (if isLeapYear y then 29 else 28)
  else if m == 4 || m == 6 || m == 9 || m == 11 then 30
  else 31

/-- Numeric value of a decimal digit character. -/
def digitVal (c : Char) : Nat := c.toNat - 48

/-- Whether a character is a decimal digit. -/
def isDigitChar (c : Char) : Bool := 48 ≤ c.toNat && c.toNat ≤ 57

/-- Parse a strict `YYYY-MM-DD` date string, rejecting calendar-invalid
dates, as pydantic does for `Optional[date]` fields. -/
def parsePyDate (s : String) : Option PyDate :=
  match s.data with
  | [y1, y2, y3, y4, s1, m1, m2, s2, d1, d2] =>
    if isDigitChar y1 && isDigitChar y2 && isDigitChar y3 && isDigitChar y4 &&
       s1.toNat == 45 && isDigitChar m1 && isDigitChar m2 &&
       s2.toNat == 45 && isDigitChar d1 && isDigitChar d2 then
      let y := digitVal y1 * 1000 + digitVal y2 * 100 + digitVal y3 * 10 + digitVal y4
      let m := digitVal m1 * 10 + digitVal m2
      let d := digitVal d1 * 10 + digitVal d2
      if 1 ≤ y && 1 ≤ m && m ≤ 12 && 1 ≤ d && d ≤ daysInMonth y m then
        some ⟨y, m, d⟩
      else none
    else none
  | _ => none

/-- Values produced by `json.loads`: the Python value space that the raw
scheme dictionaries live in (`None` is `Json.null`). -/
inductive Json where
  | null
  | bool (b : Bool)
  | num (q : Rat)
  | str (s : String)
  | arr (items : List Json)
  | obj (members : List (String × Json))
deriving Repr

/-- Python truthiness of a parsed JSON value: `None`, `False`, `0`, `""`,
`[]` and an empty dict are falsy, everything else truthy. -/
def Json.truthy : Json → Bool
  | .null => false
  | .bool b => b
  | .num q => q != 0
  | .str s => s != ""
  | .arr items => !items.isEmpty
  | .obj members => !members.isEmpty

/-- Python dictionary lookup on parsed-object members: the last binding of a
key wins, as later assignments override earlier ones when `json.loads`
builds the dict. -/
def dictFind (members : List (String × Json)) (k : String) : Option Json :=
  match members with
  | [] => none
  | (k0, v0) :: rest =>
    match dictFind rest k with
    | some v => some v
    | none => if k0 == k then some v0 else none

/-- Python `k in d` on a dict. -/
def dictHasKey (members : List (String × Json)) (k : String) : Bool :=
  (dictFind members k).isSome

/-- Python `d.get(k)`: the stored value, or `None` when the key is absent
(the stored value may itself be `None`). -/
def dictGet (members : List (String × Json)) (k : String) : Json :=
  (dictFind members k).getD .null

/-- Python `d.get(k, default)`: the default applies only when the key is
absent, not when it is present with value `None`. -/
def dictGetD (members : List (String × Json)) (k : String) (dflt : Json) : Json :=
  (dictFind members k).getD dflt

/-! ## A strict JSON reader, standing for `json.loads` -/

/-- Skip the JSON whitespace characters (space, tab, newline, carriage
return). -/
def skipWs (cs : List Char) : List Char :=
  match cs with
  | c :: rest =>
    if c.toNat == 32 || c.toNat == 9 || c.toNat == 10 || c.toNat == 13 then
      skipWs rest
    else c :: rest
  | [] => []

/-- Value of a hexadecimal digit character, if it is one. -/
def hexVal (c : Char) : Option Nat :=
  if 48 ≤ c.toNat && c.toNat ≤ 57 then some (c.toNat - 48)
  else if 97 ≤ c.toNat && c.toNat ≤ 102 then some (c.toNat - 87)
  else if 65 ≤ c.toNat && c.toNat ≤ 70 then some (c.toNat - 55)
  else none

/-- Whether the first list is an initial segment of the second. -/
def beginsWith : List Char → List Char → Bool
  | [], _ => true
  | _ :: _, [] => false
  | p :: ps, c :: cs => p == c && beginsWith ps cs

/-- Whether the first list is a final segment of the second. -/
def endsWith (p cs : List Char) : Bool :=
  beginsWith p.reverse cs.reverse

/-- Whether the second list occurs contiguously inside the first
(Python's `needle in haystack` on strings). -/
def hasSub (hay needle : List Char) : Bool :=
  match hay with
  | [] => needle.isEmpty
  | _ :: rest => beginsWith needle hay || hasSub rest needle

/-- Read the body of a JSON string after its opening quote: handles the
backslash escapes and `\uXXXX` (with surrogate pairs), rejects raw control
characters. -/
def parseStrBody (fuel : Nat) (cs : List Char) (acc : List Char) :
    Except String (String × List Char) :=
  match fuel with
  | 0 => .error "fuel exhausted"
  | fuel + 1 =>
    match cs with
    | [] => .error "unterminated string"
    | c :: rest =>
      if c.toNat == 34 then .ok (⟨acc.reverse⟩, rest)
      else if c.toNat == 92 then
        match rest with
        | [] => .error "bad escape"
        | e :: rest2 =>
          if e.toNat == 34 then parseStrBody fuel rest2 (Char.ofNat 34 :: acc)
          else if e.toNat == 92 then parseStrBody fuel rest2 (Char.ofNat 92 :: acc)
          else if e == '/' then parseStrBody fuel rest2 ('/' :: acc)
          else if e == 'b' then parseStrBody fuel rest2 (Char.ofNat 8 :: acc)
          else if e == 'f' then parseStrBody fuel rest2 (Char.ofNat 12 :: acc)
          else if e == 'n' then parseStrBody fuel rest2 (Char.ofNat 10 :: acc)
          else if e == 'r' then parseStrBody fuel rest2 (Char.ofNat 13 :: acc)
          else if e == 't' then parseStrBody fuel rest2 (Char.ofNat 9 :: acc)
          else if e == 'u' then
            match rest2 with
            | h1 :: h2 :: h3 :: h4 :: rest3 =>
              match hexVal h1, hexVal h2, hexVal h3, hexVal h4 with
              | some a, some b, some c2, some d =>
                let n := a * 4096 + b * 256 + c2 * 16 + d
                if 55296 ≤ n && n ≤ 56319 then
                  -- High surrogate: must be followed by a low surrogate.
                  match rest3 with
                  | u1 :: u2 :: l1 :: l2 :: l3 :: l4 :: rest4 =>
                    if u1.toNat == 92 && u2 == 'u' then
                      match hexVal l1, hexVal l2, hexVal l3, hexVal l4 with
                      | some a2, some b2, some c3, some d2 =>
                        let lo := a2 * 4096 + b2 * 256 + c3 * 16 + d2
                        if 56320 ≤ lo && lo ≤ 57343 then
                          let cp := 65536 + (n - 55296) * 1024 + (lo - 56320)
                          parseStrBody fuel rest4 (Char.ofNat cp :: acc)
                        else .error "lone surrogate"
                      | _, _, _, _ => .error "bad unicode escape"
                    else .error "lone surrogate"
                  | _ => .error "lone surrogate"
                else if 56320 ≤ n && n ≤ 57343 then .error "lone surrogate"
                else parseStrBody fuel rest3 (Char.ofNat n :: acc)
              | _, _, _, _ => .error "bad unicode escape"
            | _ => .error "bad unicode escape"
          else .error "bad escape"
      else if c.toNat < 32 then .error "control character in string"
      else parseStrBody fuel rest (c :: acc)

/-- Split a leading run of decimal digits from a character list. -/
def takeDigits : List Char → (List Char × List Char)
  | [] => ([], [])
  | c :: rest =>
    if isDigitChar c then
      let (ds, rest2) := takeDigits rest
      (c :: ds, rest2)
    else ([], c :: rest)

/-- Natural-number value of a digit run. -/
def digitsToNat (ds : List Char) : Nat :=
  ds.foldl (fun acc c => acc * 10 + digitVal c) 0

/-- Read a JSON number (strict grammar: no leading zeros, fraction and
exponent each need at least one digit). The value is kept exact as a
rational. -/
def parseNum (cs : List Char) : Except String (Rat × List Char) :=
  let (neg, cs1) :=
    match cs with
    | c :: rest => if c == '-' then (true, rest) else (false, c :: rest)
    | [] => (false, [])
  match cs1 with
  | [] => .error "expecting value"
  | c :: rest =>
    if !isDigitChar c then .error "expecting value"
    else
      -- Leading-zero rule: an integer part starting with 0 is just "0".
      let (ipDigits, cs2) :=
        if c == '0' then ([c], rest)
        else takeDigits (c :: rest)
      let ip : Nat := digitsToNat ipDigits
      let (fracDigits, cs3) :=
        match cs2 with
        | p :: rest2 =>
          if p == '.' then
            let (ds, rest3) := takeDigits rest2
            (ds, rest3)
          else ([], p :: rest2)
        | [] => ([], [])
      -- A dot with no digits after it is malformed.
      let fracBad :=
        match cs2 with
        | p :: _ => p == '.' && fracDigits.isEmpty
        | [] => false
      if fracBad then .error "bad number"
      else
        let hasFrac :=
          match cs2 with
          | p :: _ => p == '.'
          | [] => false
        let cs4 := if hasFrac then cs3 else cs2
        match cs4 with
        | e :: rest4 =>
          if e == 'e' || e == 'E' then
            let (expNeg, rest5) :=
              match rest4 with
              | s :: r => if s == '-' then (true, r) else if s == '+' then (false, r) else (false, s :: r)
              | [] => (false, [])
            let (expDigits, rest6) := takeDigits rest5
            if expDigits.isEmpty then .error "bad number"
            else
              let mantissa : Rat :=
                (ip : Rat) + (digitsToNat fracDigits : Rat) / ((10 : Rat) ^ fracDigits.length)
              let expVal := digitsToNat expDigits
              let scaled : Rat :=
                if expNeg then mantissa / ((10 : Rat) ^ expVal)
                else mantissa * ((10 : Rat) ^ expVal)
              .ok ((if neg then -scaled else scaled), rest6)
          else
            let mantissa : Rat :=
              (ip : Rat) + (digitsToNat fracDigits : Rat) / ((10 : Rat) ^ fracDigits.length)
            .ok ((if neg then -mantissa else mantissa), e :: rest4)
        | [] =>
          let mantissa : Rat :=
            (ip : Rat) + (digitsToNat fracDigits : Rat) / ((10 : Rat) ^ fracDigits.length)
          .ok ((if neg then -mantissa else mantissa), [])

mutual

/-- Read one JSON value (leading whitespace already skipped). -/
def parseVal (fuel : Nat) (cs : List Char) : Except String (Json × List Char) :=
  match fuel with
  | 0 => .error "fuel exhausted"
  | fuel + 1 =>
    match cs with
    | [] => .error "expecting value"
    | c :: rest =>
      if c.toNat == 34 then
        match parseStrBody (rest.length + 1) rest [] with
        | .ok (s, rest2) => .ok (.str s, rest2)
        | .error e => .error e
      else if c.toNat == 123 then
        parseMembers fuel (skipWs rest) true []
      else if c.toNat == 91 then
        parseItems fuel (skipWs rest) true []
      else if beginsWith "null".data (c :: rest) then
        .ok (.null, (c :: rest).drop 4)
      else if beginsWith "true".data (c :: rest) then
        .ok (.bool true, (c :: rest).drop 4)
      else if beginsWith "false".data (c :: rest) then
        .ok (.bool false, (c :: rest).drop 5)
      else
        match parseNum (c :: rest) with
        | .ok (q, rest2) => .ok (.num q, rest2)
        | .error e => .error e

/-- Read the members of a JSON object after the opening brace; `first`
distinguishes the position right after the brace (where a closing brace is
allowed) from the position after a comma. -/
def parseMembers (fuel : Nat) (cs : List Char) (first : Bool)
    (acc : List (String × Json)) : Except String (Json × List Char) :=
  match fuel with
  | 0 => .error "fuel exhausted"
  | fuel + 1 =>
    match cs with
    | [] => .error "unterminated object"
    | c :: rest =>
      if first && c.toNat == 125 then .ok (.obj acc.reverse, rest)
      else if c.toNat == 34 then
        match parseStrBody (rest.length + 1) rest [] with
        | .error e => .error e
        | .ok (k, rest2) =>
          match skipWs rest2 with
          | c2 :: rest3 =>
            if c2.toNat == 58 then
              match parseVal fuel (skipWs rest3) with
              | .error e => .error e
              | .ok (v, rest4) =>
                match skipWs rest4 with
                | c3 :: rest5 =>
                  if c3.toNat == 44 then
                    parseMembers fuel (skipWs rest5) false ((k, v) :: acc)
                  else if c3.toNat == 125 then
                    .ok (.obj ((k, v) :: acc).reverse, rest5)
                  else .error "expecting comma"
                | [] => .error "unterminated object"
            else .error "expecting colon"
          | [] => .error "unterminated object"
      else .error "expecting property name"

/-- Read the items of a JSON array after the opening bracket. -/
def parseItems (fuel : Nat) (cs : List Char) (first : Bool)
    (acc : List Json) : Except String (Json × List Char) :=
  match fuel with
  | 0 => .error "fuel exhausted"
  | fuel + 1 =>
    match cs with
    | [] => .error "unterminated array"
    | c :: rest =>
      if first && c.toNat == 93 then .ok (.arr acc.reverse, rest)
      else
        match parseVal fuel (c :: rest) with
        | .error e => .error e
        | .ok (v, rest2) =>
          match skipWs rest2 with
          | c2 :: rest3 =>
            if c2.toNat == 44 then
              parseItems fuel (skipWs rest3) false (v :: acc)
            else if c2.toNat == 93 then
              .ok (.arr (v :: acc).reverse, rest3)
            else .error "expecting comma"
          | [] => .error "unterminated array"

end

/-- Strict parse of a whole string as one JSON document: `json.loads`.
Trailing non-whitespace is an error ("Extra data"). -/
def parseJson (s : String) : Except String Json :=
  match parseVal (s.data.length + 1) (skipWs s.data) with
  | .error e => .error e
  | .ok (v, rest) =>
    if (skipWs rest).isEmpty then .ok v else .error "extra data"

/-- Python whitespace characters stripped by `str.strip()`. -/
def isPyWs (c : Char) : Bool :=
  c.toNat == 32 || c.toNat == 9 || c.toNat == 10 || c.toNat == 13 ||
  c.toNat == 11 || c.toNat == 12

/-- Python `str.strip()`: drop whitespace from both ends. -/
def pyStrip (s : String) : String :=
  ⟨((s.data.dropWhile isPyWs).reverse.dropWhile isPyWs).reverse⟩

/-- The markdown-fence cleaning applied by both `_parse_response` and
`_parse_schemes_json` before `json.loads`: strip, drop a leading
"```json" or "```", drop a trailing "```", strip again. -/
def cleanResponse (s : String) : String :=
  let c1 := pyStrip s
  let c2 :=
    if beginsWith "```json".data c1.data then String.mk (c1.data.drop 7) else c1
  let c3 :=
    if beginsWith "```".data c2.data then String.mk (c2.data.drop 3) else c2
  let c4 :=
    if endsWith "```".data c3.data then
      String.mk (c3.data.take (c3.data.length - 3))
    else c3
  pyStrip c4

/-! ## The canonical record and the schema mapper -/

/-- The canonical scheme record (`src/models.py::SchemeHeader`), after
pydantic validation. `extracted_at` is the creation timestamp produced by
the `datetime.now` default factory, modelled as an abstract clock value. -/
structure SchemeHeader where
  scheme_type : SchemeType
  scheme_sub_type : SchemeSubType
  scheme_name : String
  duration_start_date : Option PyDate
  duration_end_date : Option PyDate
  starting_at : Option PyDate
  ending_at : Option PyDate
  price_drop_date : Option PyDate
  discount_type : Option DiscountType
  discount_value : Option Rat
  min_order_value : Option Rat
  max_discount_cap : Option Rat
  vendor_name : Option String
  category : Option String
  remarks : Option String
  confidence : Rat
  needs_escalation : Bool
  source_file : Option String
  extracted_at : Nat
deriving DecidableEq, Repr

/-- How a record construction can fail: a pydantic `ValidationError`
(caught by the per-record handler) or any other exception, such as the
`TypeError` from hashing an unhashable dict key (caught only by the
outer generic handler). -/
inductive MapErr where
  | validation (msg : String)
  | typeErr (msg : String)
deriving DecidableEq, Repr

/-- Pydantic validation of a required `str` field. -/
def validateStr : Json → Except MapErr String
  | .str s => .ok s
  | _ => .error (.validation "string expected")

/-- Pydantic validation of an `Optional[str]` field. -/
def validateOptStr : Json → Except MapErr (Option String)
  | .null => .ok none
  | .str s => .ok (some s)
  | _ => .error (.validation "string or null expected")

/-- Pydantic validation of an `Optional[date]` field: null passes, strings
must parse as a calendar-valid `YYYY-MM-DD`. -/
def validateOptDate : Json → Except MapErr (Option PyDate)
  | .null => .ok none
  | .str s =>
    match parsePyDate s with
    | some d => .ok (some d)
    | none => .error (.validation "invalid date")
  | _ => .error (.validation "date or null expected")

/-- Pydantic validation of an `Optional[float]` field with `ge=0`. -/
def validateOptNonNegNum : Json → Except MapErr (Option Rat)
  | .null => .ok none
  | .num q => if 0 ≤ q then .ok (some q) else .error (.validation "input should be >= 0")
  | _ => .error (.validation "number or null expected")

/-- Pydantic validation of the `confidence` field (`ge=0.0, le=1.0`). -/
def validateConfidence : Json → Except MapErr Rat
  | .num q =>
    if 0 ≤ q ∧ q ≤ 1 then .ok q else .error (.validation "confidence out of range")
  | _ => .error (.validation "number expected")

/-- Pydantic validation of the `needs_escalation` boolean. -/
def validateBool : Json → Except MapErr Bool
  | .bool b => .ok b
  | _ => .error (.validation "bool expected")

/-- Pydantic validation of the `scheme_type` enumeration field. -/
def validateSchemeType : Json → Except MapErr SchemeType
  | .str s =>
    match SchemeType.ofStr s with
    | some t => .ok t
    | none => .error (.validation "invalid scheme_type")
  | _ => .error (.validation "invalid scheme_type")

/-- Pydantic validation of the `scheme_sub_type` enumeration field. -/
def validateSchemeSubType : Json → Except MapErr SchemeSubType
  | .str s =>
    match SchemeSubType.ofStr s with
    | some t => .ok t
    | none => .error (.validation "invalid scheme_sub_type")
  | _ => .error (.validation "invalid scheme_sub_type")

/-- Pydantic validation of the `discount_type` field after the lookup-table
step. -/
def validateOptDiscountType : Json → Except MapErr (Option DiscountType)
  | .null => .ok none
  | .str s =>
    match DiscountType.ofStr s with
    | some t => .ok (some t)
    | none => .error (.validation "invalid discount_type")
  | _ => .error (.validation "invalid discount_type")

/-- The `discount_type_map` of `DSPySchemeExtractor._map_to_scheme_header`. -/
def discountTypeTableD : List (String × String) :=
  [("Percentage of MRP", "PERCENTAGE"),
   ("Percentage of NLC", "PERCENTAGE"),
   ("Absolute", "FLAT"),
   ("PERCENTAGE", "PERCENTAGE"),
   ("FLAT", "FLAT"),
   ("SLAB", "SLAB"),
   ("Other", "OTHER")]

/-- The `discount_type_map` of `SchemeExtractor._map_to_scheme_header`
(`src/src/llm/dspy_modules.py`). -/
def discountTypeTableM : List (String × String) :=
  [("Percentage of MRP", "PERCENTAGE"),
   ("Percentage of NLC", "PERCENTAGE"),
   ("Absolute", "FLAT"),
   ("Other", "OTHER")]

/-- Lookup in a fixed string-keyed table. -/
def tableLookup (table : List (String × String)) (k : String) : Option String :=
  (table.find? (fun p => p.1 == k)).map (fun p => p.2)

/-- The Python fragment `if discount_type: discount_type =
discount_type_map.get(discount_type, "OTHER")`: falsy values (null, the
empty string, 0, ...) are left unchanged; truthy hashable values are looked
up with default `"OTHER"`; unhashable values (lists, dicts) raise a
`TypeError`. -/
def applyDiscountMap (table : List (String × String)) (v : Json) : Except MapErr Json :=
  if v.truthy then
    match v with
    | .str s => .ok (.str ((tableLookup table s).getD "OTHER"))
    | .num _ => .ok (.str "OTHER")
    | .bool _ => .ok (.str "OTHER")
    | .arr _ => .error (.typeErr "unhashable type")
    | .obj _ => .error (.typeErr "unhashable type")
    | .null => .ok .null
  else .ok v

/-- Python `a or b` on parsed values: the first operand when truthy,
otherwise the second. -/
def pyOr (a b : Json) : Json :=
  if a.truthy then a else b

/-- `DSPySchemeExtractor._map_to_scheme_header` fused with pydantic
validation of the constructed `SchemeHeader`: the discount-type table step
runs first (it can raise `TypeError`), then every field is validated. -/
def mapToSchemeHeaderD (now : Nat) (d : List (String × Json)) :
    Except MapErr SchemeHeader := do
  let dtRaw ← applyDiscountMap discountTypeTableD (dictGet d "discount_type")
  let st ← validateSchemeType (dictGetD d "scheme_type" (.str "OTHER"))
  let sst ← validateSchemeSubType (dictGetD d "scheme_sub_type" (.str "OTHER"))
  let name ← validateStr (dictGetD d "scheme_name" (.str ""))
  let dsd ← validateOptDate (dictGet d "duration_start_date")
  let ded ← validateOptDate (dictGet d "duration_end_date")
  let sa ← validateOptDate (dictGet d "starting_at")
  let ea ← validateOptDate (dictGet d "ending_at")
  let pdd ← validateOptDate (dictGet d "price_drop_date")
  let dt ← validateOptDiscountType dtRaw
  let dv ← validateOptNonNegNum (pyOr (dictGet d "discount_value") (dictGet d "global_cap_amount"))
  let mov ← validateOptNonNegNum (dictGet d "min_order_value")
  let mdc ← validateOptNonNegNum (pyOr (dictGet d "max_discount_cap") (dictGet d "global_cap_amount"))
  let vn ← validateOptStr (dictGet d "vendor_name")
  let cat ← validateOptStr (dictGet d "category")
  let rem ← validateOptStr (pyOr (dictGet d "description") (dictGet d "remarks"))
  let conf ← validateConfidence (dictGetD d "confidence" (.num ((1 : Rat) / 2)))
  let esc ← validateBool (dictGetD d "needs_escalation" (.bool false))
  return {
    scheme_type := st
    scheme_sub_type := sst
    scheme_name := name
    duration_start_date := dsd
    duration_end_date := ded
    starting_at := sa
    ending_at := ea
    price_drop_date := pdd
    discount_type := dt
    discount_value := dv
    min_order_value := mov
    max_discount_cap := mdc
    vendor_name := vn
    category := cat
    remarks := rem
    confidence := conf
    needs_escalation := esc
    source_file := none
    extracted_at := now }

/-- `SchemeExtractor._map_to_scheme_header` of `dspy_modules.py`: the
smaller lookup table, `discount_value`/`max_discount_cap` both taken
directly from `global_cap_amount`, and `remarks` from `description`. -/
def mapToSchemeHeaderM (now : Nat) (d : List (String × Json)) :
    Except MapErr SchemeHeader := do
  let dtRaw ← applyDiscountMap discountTypeTableM (dictGet d "discount_type")
  let st ← validateSchemeType (dictGetD d "scheme_type" (.str "OTHER"))
  let sst ← validateSchemeSubType (dictGetD d "scheme_sub_type" (.str "OTHER"))
  let name ← validateStr (dictGetD d "scheme_name" (.str ""))
  let dsd ← validateOptDate (dictGet d "duration_start_date")
  let ded ← validateOptDate (dictGet d "duration_end_date")
  let sa ← validateOptDate (dictGet d "starting_at")
  let ea ← validateOptDate (dictGet d "ending_at")
  let pdd ← validateOptDate (dictGet d "price_drop_date")
  let dt ← validateOptDiscountType dtRaw
  let dv ← validateOptNonNegNum (dictGet d "global_cap_amount")
  let mdc ← validateOptNonNegNum (dictGet d "global_cap_amount")
  let rem ← validateOptStr (dictGet d "description")
  let conf ← validateConfidence (dictGetD d "confidence" (.num ((1 : Rat) / 2)))
  let esc ← validateBool (dictGetD d "needs_escalation" (.bool false))
  return {
    scheme_type := st
    scheme_sub_type := sst
    scheme_name := name
    duration_start_date := dsd
    duration_end_date := ded
    starting_at := sa
    ending_at := ea
    price_drop_date := pdd
    discount_type := dt
    discount_value := dv
    min_order_value := none
    max_discount_cap := mdc
    vendor_name := none
    category := none
    remarks := rem
    confidence := conf
    needs_escalation := esc
    source_file := none
    extracted_at := now }

/-! ## The response parsing loop -/

/-- Python `k in data` for a parsed value: key membership for dicts,
element membership for lists, substring for strings; a `TypeError` for the
other shapes. -/
def pyContains (j : Json) (k : String) : Except MapErr Bool :=
  match j with
  | .obj members => .ok (dictHasKey members k)
  | .arr items =>
    .ok (items.any (fun v => match v with | .str s => s == k | _ => false))
  | .str s => .ok (hasSub s.data k.data)
  | _ => .error (.typeErr "argument is not iterable")

/-- Python `data[k]` for a parsed value. -/
def pySubscript (j : Json) (k : String) : Except MapErr Json :=
  match j with
  | .obj members =>
    match dictFind members k with
    | some v => .ok v
    | none => .error (.typeErr "KeyError")
  | _ => .error (.typeErr "not subscriptable")

/-- The default-injection step at the top of the `_parse_schemes_json`
record loop: `scheme_data["confidence"] = default_confidence` when the key
is absent, then the same for `needs_escalation` (dictionary assignment of
an absent key appends a binding). -/
def injectDefaults (defC : Rat) (defE : Bool) (members : List (String × Json)) :
    List (String × Json) :=
  let m1 := if dictHasKey members "confidence" then members
            else members ++ [("confidence", Json.num defC)]
  if dictHasKey m1 "needs_escalation" then m1
  else m1 ++ [("needs_escalation", Json.bool defE)]

/-- The per-record loop of `_parse_schemes_json`: inject the stage-7
defaults for `confidence` and `needs_escalation` when their keys are
absent, map the record, drop it on `ValidationError`, and abort the whole
parse on any other exception (a non-dict item or an unhashable
`discount_type` raises outside the narrow handler). -/
def schemesLoopD (now : Nat) (defC : Rat) (defE : Bool) :
    List Json → Except MapErr (List SchemeHeader)
  | [] => .ok []
  | item :: rest =>
    match item with
    | .obj members =>
      match mapToSchemeHeaderD now (injectDefaults defC defE members) with
      | .ok r =>
        match schemesLoopD now defC defE rest with
        | .ok rs => .ok (r :: rs)
        | .error e => .error e
      | .error (.validation _) => schemesLoopD now defC defE rest
      | .error (.typeErr m) => .error (.typeErr m)
    | _ => .error (.typeErr "item is not a dict")

/-- The per-record loop of `_parse_response` (`dspy_modules.py`): no
default injection, the modules-version mapper. -/
def schemesLoopM (now : Nat) : List Json → Except MapErr (List SchemeHeader)
  | [] => .ok []
  | item :: rest =>
    match item with
    | .obj members =>
      match mapToSchemeHeaderM now members with
      | .ok r =>
        match schemesLoopM now rest with
        | .ok rs => .ok (r :: rs)
        | .error e => .error e
      | .error (.validation _) => schemesLoopM now rest
      | .error (.typeErr m) => .error (.typeErr m)
    | _ => .error (.typeErr "item is not a dict")

/-- `DSPySchemeExtractor._parse_schemes_json`: clean the fences, parse the
JSON (decode failure gives an empty list), return an empty list when the
top-level `schemes` key is missing, then run the validate-or-drop loop;
any non-`ValidationError` exception is caught by the generic handler and
also yields an empty list. -/
def parseSchemesJsonD (now : Nat) (schemesJson : String) (defC : Rat) (defE : Bool) :
    List SchemeHeader :=
  match parseJson (cleanResponse schemesJson) with
  | .error _ => []
  | .ok data =>
    match pyContains data "schemes" with
    | .error _ => []
    | .ok false => []
    | .ok true =>
      match pySubscript data "schemes" with
      | .error _ => []
      | .ok (.arr items) =>
        match schemesLoopD now defC defE items with
        | .ok rs => rs
        | .error _ => []
      | .ok _ => []

/-- `SchemeExtractor._parse_response` (`dspy_modules.py`): identical
cleaning/parse/missing-key structure, modules-version record loop. -/
def parseResponseM (now : Nat) (response : String) : List SchemeHeader :=
  match parseJson (cleanResponse response) with
  | .error _ => []
  | .ok data =>
    match pyContains data "schemes" with
    | .error _ => []
    | .ok false => []
    | .ok true =>
      match pySubscript data "schemes" with
      | .error _ => []
      | .ok (.arr items) =>
        match schemesLoopM now items with
        | .ok rs => rs
        | .error _ => []
      | .ok _ => []

/-! ## The extract entry point -/

/-- Structured response from extraction (`src/models.py::LLMResponse`). -/
structure LLMResponse where
  schemes : List SchemeHeader
  raw_response : Option String
  tokens_used : Option Nat
  model_used : Option String
  reasoning : Option String
deriving DecidableEq, Repr

/-- The `needs_escalation` property of `LLMResponse`: `any` over the
per-scheme flags. -/
def LLMResponse.needsEscalation (r : LLMResponse) : Bool :=
  r.schemes.any (fun s => s.needs_escalation)

/-- The `average_confidence` property of `LLMResponse`: 0.0 for an empty
batch, otherwise the unweighted mean. -/
def LLMResponse.averageConfidence (r : LLMResponse) : Rat :=
  if r.schemes.isEmpty then 0
  else (r.schemes.map (fun s => s.confidence)).sum / (r.schemes.length : Rat)

/-- The dictionary returned by `SchemeExtractionCoT.forward`, as consumed
by `extract`: the assembled schemes JSON plus the stage-7 confidence
signals, each read with `result.get(..., default)` (so key presence is
modelled with `Option`). -/
structure CotResult where
  schemes_json : String
  confidence_score : Option Rat
  needs_escalation : Option Bool
  reasoning : Option String
deriving Repr

/-- `DSPySchemeExtractor.extract`: the chain-of-thought attempt is either a
result dictionary or an uncaught exception; the exception branch returns
the empty response built in the `except` handler. -/
def extractD (now : Nat) (modelName : String) (tokens : Option Nat)
    (attempt : Except String CotResult) : LLMResponse :=
  match attempt with
  | .ok result =>
    { schemes := parseSchemesJsonD now result.schemes_json
        (result.confidence_score.getD ((1 : Rat) / 2))
        (result.needs_escalation.getD false)
      raw_response := some result.schemes_json
      tokens_used := tokens
      model_used := some modelName
      reasoning := result.reasoning }
  | .error e =>
    { schemes := []
      raw_response := some e
      tokens_used := none
      model_used := some modelName
      reasoning := some ("Extraction failed: " ++ e) }

/-! ## MD5 and the deduplication fingerprint

The `scheme_id` of `build_scheme_header.py` is
`hashlib.md5(raw_id.encode()).hexdigest()[:10]`, so the digest algorithm is
embedded in full: 32-bit words are naturals reduced mod `2^32`. -/

/-- Bitwise complement within 32 bits (operands stay below `2^32`). -/
def not32 (x : Nat) : Nat := 4294967295 - x

/-- Left rotation of a 32-bit word. -/
def rotl32 (x n : Nat) : Nat :=
  (x * 2 ^ n + x / 2 ^ (32 - n)) % 4294967296

/-- The 64 MD5 sine-derived round constants. -/
def md5K : List Nat :=
  [0xd76aa478, 0xe8c7b756, 0x242070db, 0xc1bdceee,
   0xf57c0faf, 0x4787c62a, 0xa8304613, 0xfd469501,
   0x698098d8, 0x8b44f7af, 0xffff5bb1, 0x895cd7be,
   0x6b901122, 0xfd987193, 0xa679438e, 0x49b40821,
   0xf61e2562, 0xc040b340, 0x265e5a51, 0xe9b6c7aa,
   0xd62f105d, 0x02441453, 0xd8a1e681, 0xe7d3fbc8,
   0x21e1cde6, 0xc33707d6, 0xf4d50d87, 0x455a14ed,
   0xa9e3e905, 0xfcefa3f8, 0x676f02d9, 0x8d2a4c8a,
   0xfffa3942, 0x8771f681, 0x6d9d6122, 0xfde5380c,
   0xa4beea44, 0x4bdecfa9, 0xf6bb4b60, 0xbebfbc70,
   0x289b7ec6, 0xeaa127fa, 0xd4ef3085, 0x04881d05,
   0xd9d4d039, 0xe6db99e5, 0x1fa27cf8, 0xc4ac5665,
   0xf4292244, 0x432aff97, 0xab9423a7, 0xfc93a039,
   0x655b59c3, 0x8f0ccc92, 0xffeff47d, 0x85845dd1,
   0x6fa87e4f, 0xfe2ce6e0, 0xa3014314, 0x4e0811a1,
   0xf7537e82, 0xbd3af235, 0x2ad7d2bb, 0xeb86d391]

/-- The 64 MD5 per-round shift amounts. -/
def md5S : List Nat :=
  [7, 12, 17, 22, 7, 12, 17, 22, 7, 12, 17, 22, 7, 12, 17, 22,
   5, 9, 14, 20, 5, 9, 14, 20, 5, 9, 14, 20, 5, 9, 14, 20,
   4, 11, 16, 23, 4, 11, 16, 23, 4, 11, 16, 23, 4, 11, 16, 23,
   6, 10, 15, 21, 6, 10, 15, 21, 6, 10, 15, 21, 6, 10, 15, 21]

/-- Little-endian 32-bit word `j` of a 64-byte block. -/
def wordAt (block : List Nat) (j : Nat) : Nat :=
  block.getD (4 * j) 0 + 256 * block.getD (4 * j + 1) 0 +
  65536 * block.getD (4 * j + 2) 0 + 16777216 * block.getD (4 * j + 3) 0

/-- One MD5 round applied to the state `(a, b, c, d)`. -/
def md5Round (block : List Nat) (st : Nat × Nat × Nat × Nat) (i : Nat) :
    Nat × Nat × Nat × Nat :=
  let a := st.1
  let b := st.2.1
  let c := st.2.2.1
  let d := st.2.2.2
  let f :=
    if i < 16 then (b &&& c) ||| (not32 b &&& d)
    else if i < 32 then (d &&& b) ||| (not32 d &&& c)
    else if i < 48 then b ^^^ c ^^^ d
    else c ^^^ (b ||| not32 d)
  let g :=
    if i < 16 then i
    else if i < 32 then (5 * i + 1) % 16
    else if i < 48 then (3 * i + 5) % 16
    else (7 * i) % 16
  let f2 := (f + a + md5K.getD i 0 + wordAt block g) % 4294967296
  (d, (b + rotl32 f2 (md5S.getD i 0)) % 4294967296, b, c)

/-- Process one 64-byte block: 64 rounds, then add into the running state. -/
def md5Block (st : Nat × Nat × Nat × Nat) (block : List Nat) :
    Nat × Nat × Nat × Nat :=
  let r := (List.range 64).foldl (md5Round block) st
  ((st.1 + r.1) % 4294967296,
   (st.2.1 + r.2.1) % 4294967296,
   (st.2.2.1 + r.2.2.1) % 4294967296,
   (st.2.2.2 + r.2.2.2) % 4294967296)

/-- Split a byte list into 64-byte blocks (fuel-driven recursion). -/
def toBlocks (fuel : Nat) (bs : List Nat) : List (List Nat) :=
  match fuel, bs with
  | 0, _ => []
  | _, [] => []
  | fuel + 1, bs => bs.take 64 :: toBlocks fuel (bs.drop 64)

/-- Little-endian bytes of a 32-bit word. -/
def wordLEBytes (w : Nat) : List Nat :=
  [w % 256, w / 256 % 256, w / 65536 % 256, w / 16777216 % 256]

/-- MD5 padding: `0x80`, zeros up to 56 mod 64, then the 64-bit
little-endian bit length. -/
def md5Pad (msg : List Nat) : List Nat :=
  let padLen := (119 - msg.length % 64) % 64
  let bitLen := (msg.length * 8) % 18446744073709551616
  msg ++ [128] ++ List.replicate padLen 0 ++
    (List.range 8).map (fun k => bitLen / 256 ^ k % 256)

/-- The 16 digest bytes of a message. -/
def md5Digest (msg : List Nat) : List Nat :=
  let padded := md5Pad msg
  let r := (toBlocks padded.length padded).foldl md5Block
    (1732584193, 4023233417, 2562383102, 271733878)
  wordLEBytes r.1 ++ wordLEBytes r.2.1 ++ wordLEBytes r.2.2.1 ++ wordLEBytes r.2.2.2

/-- Lowercase hexadecimal digit character. -/
def hexDigitChar (n : Nat) : Char :=
  Char.ofNat (if n < 10 then 48 + n else 87 + n)

/-- Lowercase hexadecimal rendering of a byte list. -/
def hexOfBytes (bs : List Nat) : String :=
  ⟨bs.flatMap (fun b => [hexDigitChar (b / 16 % 16), hexDigitChar (b % 16)])⟩

/-- `hashlib.md5(...).hexdigest()` over a byte list. -/
def md5Hex (bytes : List Nat) : String :=
  hexOfBytes (md5Digest bytes)

/-- UTF-8 encoding of one character (`str.encode()`). -/
def utf8Encode (c : Char) : List Nat :=
  let n := c.toNat
  if n < 128 then [n]
  else if n < 2048 then [192 + n / 64, 128 + n % 64]
  else if n < 65536 then [224 + n / 4096, 128 + n / 64 % 64, 128 + n % 64]
  else [240 + n / 262144, 128 + n / 4096 % 64, 128 + n / 64 % 64, 128 + n % 64]

/-- UTF-8 bytes of a string. -/
def strToUtf8 (s : String) : List Nat :=
  s.data.flatMap utf8Encode

mutual

/-- Python `repr` of a parsed JSON value, used by `str` for the elements of
containers. The decimal rendering of non-integral numbers is simplified to
an exact rational form; no theorem below depends on that rendering. -/
def pyRepr : Json → String
  | .null => "None"
  | .bool true => "True"
  | .bool false => "False"
  | .num q => if q.den == 1 then toString q.num else toString q
  | .str s => "'" ++ s ++ "'"
  | .arr items => "[" ++ ", ".intercalate (pyReprList items) ++ "]"
  | .obj members => "\x7b" ++ ", ".intercalate (pyReprMembers members) ++ "\x7d"

/-- Renderings of the elements of a list value. -/
def pyReprList : List Json → List String
  | [] => []
  | v :: rest => pyRepr v :: pyReprList rest

/-- Renderings of the members of a dict value. -/
def pyReprMembers : List (String × Json) → List String
  | [] => []
  | (k, v) :: rest => ("'" ++ k ++ "': " ++ pyRepr v) :: pyReprMembers rest

end

/-- Python `str` of a parsed JSON value, as interpolated by an f-string
(`None` renders as "None", strings render bare). -/
def pyStrVal : Json → String
  | .null => "None"
  | .bool true => "True"
  | .bool false => "False"
  | .num q => if q.den == 1 then toString q.num else toString q
  | .str s => s
  | .arr items => pyRepr (.arr items)
  | .obj members => pyRepr (.obj members)

/-- Python slicing `s[:n]` at the character level. -/
def strTake (s : String) (n : Nat) : String :=
  ⟨s.data.take n⟩

/-- The `raw_id` f-string of `build_scheme_header`:
`f"{scheme.get('scheme_name')}|{scheme.get('duration_start_date')}|{scheme.get('duration_end_date')}"`. -/
def rawId (d : List (String × Json)) : String :=
  pyStrVal (dictGet d "scheme_name") ++ "|" ++
  pyStrVal (dictGet d "duration_start_date") ++ "|" ++
  pyStrVal (dictGet d "duration_end_date")

/-- The `scheme_id` fingerprint of `build_scheme_header`:
`hashlib.md5(raw_id.encode()).hexdigest()[:10]`. -/
def fingerprint (d : List (String × Json)) : String :=
  strTake (md5Hex (strToUtf8 (rawId d))) 10

/-! ## Helper lemmas -/

/-- Decompose a successful `Except` bind into its two successful stages. -/
theorem exBind_ok {ε α β : Type} {x : Except ε α} {f : α → Except ε β} {b : β} :
    (x >>= f) = .ok b ↔ ∃ a, x = .ok a ∧ f a = .ok b := by
  cases x <;> simp [Bind.bind, Except.bind]

/-- A `pure` value is `ok` of exactly that value. -/
theorem exPure_ok {ε α : Type} {a b : α} :
    (pure a : Except ε α) = .ok b ↔ a = b := by
  simp [pure, Except.pure]

/-- Character count of the hex rendering of a byte list. -/
theorem hexChars_length (bs : List Nat) :
    (bs.flatMap (fun b => [hexDigitChar (b / 16 % 16), hexDigitChar (b % 16)])).length
      = 2 * bs.length := by
  induction bs with
  | nil => rfl
  | cons b rest ih =>
    simp only [List.flatMap_cons, List.length_append, List.length_cons,
      List.length_nil, ih, List.length_cons]
    omega

/-- The hex string of a byte list has two characters per byte. -/
theorem hexOfBytes_length (bs : List Nat) : (hexOfBytes bs).length = 2 * bs.length :=
  hexChars_length bs

/-- An MD5 digest is 16 bytes for every message. -/
theorem md5Digest_length (msg : List Nat) : (md5Digest msg).length = 16 := by
  unfold md5Digest
  simp [wordLEBytes]

/-- An MD5 hexdigest is 32 characters for every input. -/
theorem md5Hex_length (bs : List Nat) : (md5Hex bs).length = 32 := by
  rw [md5Hex, hexOfBytes_length, md5Digest_length]

/-- Length of a character-level slice. -/
theorem strTake_length (s : String) (n : Nat) :
    (strTake s n).length = min n s.length := by
  show (s.data.take n).length = min n s.data.length
  exact List.length_take n s.data

/-- Every fingerprint is exactly 10 characters. -/
theorem fingerprint_length (d : List (String × Json)) :
    (fingerprint d).length = 10 := by
  rw [fingerprint, strTake_length, md5Hex_length]
  omega

/-- Lookup across an append: the later (right) bindings win. -/
theorem dictFind_append (xs ys : List (String × Json)) (k : String) :
    dictFind (xs ++ ys) k =
      match dictFind ys k with
      | some v => some v
      | none => dictFind xs k := by
  induction xs with
  | nil => cases hys : dictFind ys k <;> simp [dictFind, hys]
  | cons p rest ih =>
    obtain ⟨k0, v0⟩ := p
    cases hys : dictFind ys k <;> simp [dictFind, ih, hys]

/-- Appending a binding for a key makes it the value found. -/
theorem dictFind_append_same (xs : List (String × Json)) (k : String) (v : Json) :
    dictFind (xs ++ [(k, v)]) k = some v := by
  rw [dictFind_append]
  simp [dictFind]

/-- Appending a binding for a different key leaves a lookup unchanged. -/
theorem dictFind_append_other (xs : List (String × Json)) (k k2 : String) (v : Json)
    (h : (k2 == k) = false) :
    dictFind (xs ++ [(k2, v)]) k = dictFind xs k := by
  rw [dictFind_append]
  cases hxs : dictFind xs k <;> simp [dictFind, h]

/-- Field-level inversion of a successful `mapToSchemeHeaderD` call: every
field of the record is the validated image of the corresponding raw
lookup, and the timestamp is the clock value. -/
theorem mapD_ok_fields {now : Nat} {d : List (String × Json)} {r : SchemeHeader}
    (h : mapToSchemeHeaderD now d = .ok r) :
    (∃ dtRaw, applyDiscountMap discountTypeTableD (dictGet d "discount_type") = .ok dtRaw ∧
       validateOptDiscountType dtRaw = .ok r.discount_type) ∧
    validateSchemeType (dictGetD d "scheme_type" (.str "OTHER")) = .ok r.scheme_type ∧
    validateSchemeSubType (dictGetD d "scheme_sub_type" (.str "OTHER")) = .ok r.scheme_sub_type ∧
    validateOptDate (dictGet d "duration_start_date") = .ok r.duration_start_date ∧
    validateOptDate (dictGet d "duration_end_date") = .ok r.duration_end_date ∧
    validateOptDate (dictGet d "starting_at") = .ok r.starting_at ∧
    validateOptDate (dictGet d "ending_at") = .ok r.ending_at ∧
    validateOptNonNegNum (pyOr (dictGet d "discount_value") (dictGet d "global_cap_amount"))
      = .ok r.discount_value ∧
    validateOptNonNegNum (pyOr (dictGet d "max_discount_cap") (dictGet d "global_cap_amount"))
      = .ok r.max_discount_cap ∧
    validateOptStr (pyOr (dictGet d "description") (dictGet d "remarks")) = .ok r.remarks ∧
    validateConfidence (dictGetD d "confidence" (.num ((1 : Rat) / 2))) = .ok r.confidence ∧
    validateBool (dictGetD d "needs_escalation" (.bool false)) = .ok r.needs_escalation ∧
    r.extracted_at = now := by
  rw [mapToSchemeHeaderD] at h
  simp only [exBind_ok, exPure_ok] at h
  obtain ⟨dtRaw, h1, st, h2, sst, h3, name, h4, dsd, h5, ded, h6, sa, h7, ea, h8,
    pdd, h9, dt, h10, dv, h11, mov, h12, mdc, h13, vn, h14, cat, h15, rem, h16,
    conf, h17, esc, h18, hr⟩ := h
  subst hr
  exact ⟨⟨dtRaw, h1, h10⟩, h2, h3, h5, h6, h7, h8, h11, h13, h16, h17, h18, rfl⟩

/-- Discount-field inversion of a successful `mapToSchemeHeaderM` call
(the `dspy_modules.py` mapper). -/
theorem mapM_ok_discount {now : Nat} {d : List (String × Json)} {r : SchemeHeader}
    (h : mapToSchemeHeaderM now d = .ok r) :
    ∃ dtRaw, applyDiscountMap discountTypeTableM (dictGet d "discount_type") = .ok dtRaw ∧
      validateOptDiscountType dtRaw = .ok r.discount_type := by
  rw [mapToSchemeHeaderM] at h
  simp only [exBind_ok, exPure_ok] at h
  obtain ⟨dtRaw, h1, st, h2, sst, h3, name, h4, dsd, h5, ded, h6, sa, h7, ea, h8,
    pdd, h9, dt, h10, dv, h11, mdc, h12, rem, h13, conf, h14, esc, h15, hr⟩ := h
  subst hr
  exact ⟨dtRaw, h1, h10⟩

/-- After default injection, a `confidence` binding present in the raw
dictionary is the one found. -/
theorem injectDefaults_confidence_present (dc : Rat) (de : Bool)
    (members : List (String × Json)) (v : Json)
    (h : dictFind members "confidence" = some v) :
    dictFind (injectDefaults dc de members) "confidence" = some v := by
  unfold injectDefaults
  have hk : dictHasKey members "confidence" = true := by simp [dictHasKey, h]
  simp only [hk, if_true]
  by_cases h2 : dictHasKey members "needs_escalation" = true
  · simp [h2, h]
  · simp only [Bool.not_eq_true] at h2
    simp only [h2, Bool.false_eq_true, if_false]
    rw [dictFind_append_other _ _ _ _ (by decide)]
    exact h

/-- After default injection, an absent `confidence` key is bound to the
stage-7 default. -/
theorem injectDefaults_confidence_absent (dc : Rat) (de : Bool)
    (members : List (String × Json))
    (h : dictHasKey members "confidence" = false) :
    dictFind (injectDefaults dc de members) "confidence" = some (.num dc) := by
  unfold injectDefaults
  simp only [h, Bool.false_eq_true, if_false]
  by_cases h2 : dictHasKey (members ++ [("confidence", Json.num dc)]) "needs_escalation" = true
  · simp only [h2, if_true]
    exact dictFind_append_same members "confidence" (.num dc)
  · simp only [Bool.not_eq_true] at h2
    simp only [h2, Bool.false_eq_true, if_false]
    rw [dictFind_append_other _ _ _ _ (by decide)]
    exact dictFind_append_same members "confidence" (.num dc)

/-- After default injection, a `needs_escalation` binding present in the
raw dictionary is the one found. -/
theorem injectDefaults_escalation_present (dc : Rat) (de : Bool)
    (members : List (String × Json)) (v : Json)
    (h : dictFind members "needs_escalation" = some v) :
    dictFind (injectDefaults dc de members) "needs_escalation" = some v := by
  unfold injectDefaults
  by_cases hk : dictHasKey members "confidence" = true
  · have hk2 : dictHasKey members "needs_escalation" = true := by
      simp [dictHasKey, h]
    simp [hk, hk2, h]
  · simp only [Bool.not_eq_true] at hk
    simp only [hk, Bool.false_eq_true, if_false]
    have hfind : dictFind (members ++ [("confidence", Json.num dc)]) "needs_escalation"
        = some v := by
      rw [dictFind_append_other _ _ _ _ (by decide)]
      exact h
    have hk2 : dictHasKey (members ++ [("confidence", Json.num dc)]) "needs_escalation"
        = true := by
      simp [dictHasKey, hfind]
    simp [hk2, hfind]

/-- After default injection, an absent `needs_escalation` key is bound to
the stage-7 default. -/
theorem injectDefaults_escalation_absent (dc : Rat) (de : Bool)
    (members : List (String × Json))
    (h : dictHasKey members "needs_escalation" = false) :
    dictFind (injectDefaults dc de members) "needs_escalation" = some (.bool de) := by
  unfold injectDefaults
  by_cases hk : dictHasKey members "confidence" = true
  · simp only [hk, if_true, h, Bool.false_eq_true, if_false]
    exact dictFind_append_same members "needs_escalation" (.bool de)
  · simp only [Bool.not_eq_true] at hk
    simp only [hk, Bool.false_eq_true, if_false]
    have h2 : dictHasKey (members ++ [("confidence", Json.num dc)]) "needs_escalation"
        = false := by
      simp only [dictHasKey]
      rw [dictFind_append_other _ _ _ _ (by decide)]
      simpa [dictHasKey] using h
    simp only [h2, Bool.false_eq_true, if_false]
    exact dictFind_append_same _ "needs_escalation" (.bool de)

/-- Bind on a success reduces to the continuation. -/
theorem exBind_ok_eval {ε α β : Type} (a : α) (f : α → Except ε β) :
    ((Except.ok a : Except ε α) >>= f) = f a := rfl

/-- Bind on a failure short-circuits. -/
theorem exBind_error_eval {ε α β : Type} (e : ε) (f : α → Except ε β) :
    ((Except.error e : Except ε α) >>= f) = .error e := rfl

/-- Map over a success. -/
theorem exMap_ok_eval {ε α β : Type} (f : α → β) (a : α) :
    Except.map f (Except.ok a : Except ε α) = .ok (f a) := rfl

/-- Map over a failure. -/
theorem exMap_error_eval {ε α β : Type} (f : α → β) (e : ε) :
    Except.map f (Except.error e : Except ε α) = .error e := rfl

/-- The two-step discount-type transformation on a non-empty string input:
lookup in the fixed table with default `"OTHER"`, then enum validation of
the looked-up value. -/
theorem discount_step_str (table : List (String × String)) (s : String)
    (hs : s ≠ "") (dtRaw : Json) (dtv : Option DiscountType)
    (h1 : applyDiscountMap table (.str s) = .ok dtRaw)
    (h2 : validateOptDiscountType dtRaw = .ok dtv) :
    dtv = DiscountType.ofStr ((tableLookup table s).getD "OTHER") := by
  have htr : (Json.str s).truthy = true := by
    simp [Json.truthy, hs]
  rw [applyDiscountMap, htr] at h1
  simp only [if_true] at h1
  injection h1 with h1
  subst h1
  rw [validateOptDiscountType] at h2
  cases hof : DiscountType.ofStr ((tableLookup table s).getD "OTHER") with
  | none => rw [hof] at h2; cases h2
  | some t => rw [hof] at h2; injection h2 with h2; exact h2.symm

/-- The discount-type transformation passes a null through unchanged, and
null validates to an absent discount type. -/
theorem discount_step_null (table : List (String × String)) (dtRaw : Json)
    (dtv : Option DiscountType)
    (h1 : applyDiscountMap table .null = .ok dtRaw)
    (h2 : validateOptDiscountType dtRaw = .ok dtv) :
    dtv = none := by
  rw [applyDiscountMap] at h1
  simp only [Json.truthy, Bool.false_eq_true, if_false] at h1
  injection h1 with h1
  subst h1
  rw [validateOptDiscountType] at h2
  injection h2 with h2
  exact h2.symm

/-- The empty string is falsy, so it escapes the lookup table and is then
rejected by enum validation. -/
theorem discount_step_empty (table : List (String × String)) (dtRaw : Json)
    (dtv : Option DiscountType)
    (h1 : applyDiscountMap table (.str "") = .ok dtRaw)
    (h2 : validateOptDiscountType dtRaw = .ok dtv) : False := by
  rw [applyDiscountMap] at h1
  simp only [Json.truthy, bne_self_eq_false, Bool.false_eq_true, if_false] at h1
  injection h1 with h1
  subst h1
  rw [validateOptDiscountType] at h2
  simp only [DiscountType.ofStr] at h2
  cases h2

/-! ## C1 -/

/-- C1: the deduplication fingerprint computed by `build_scheme_header` is
a pure deterministic function of the triple `(scheme_name,
duration_start_date, duration_end_date)`: it is a 10-character digest, and
two scheme dictionaries that agree on this triple receive identical
fingerprints, whatever their other fields. -/
theorem fingerprint_pure_function_of_triple (d1 d2 : List (String × Json))
    (h1 : dictGet d1 "scheme_name" = dictGet d2 "scheme_name")
    (h2 : dictGet d1 "duration_start_date" = dictGet d2 "duration_start_date")
    (h3 : dictGet d1 "duration_end_date" = dictGet d2 "duration_end_date") :
    fingerprint d1 = fingerprint d2 ∧ (fingerprint d1).length = 10 := by
  refine ⟨?_, fingerprint_length d1⟩
  unfold fingerprint rawId
  rw [h1, h2, h3]

/-- Witness for C1: two concrete dictionaries agreeing on the identity
triple but differing in confidence, vendors, and financials get the same
10-character fingerprint. -/
theorem fingerprint_pure_function_of_triple_witness :
    fingerprint
      [("scheme_name", Json.str "JBP Q1"),
       ("duration_start_date", Json.str "2024-01-01"),
       ("duration_end_date", Json.str "2024-03-31"),
       ("confidence", Json.num ((9 : Rat) / 10)),
       ("vendors", Json.arr [Json.str "Acme"])] =
    fingerprint
      [("scheme_name", Json.str "JBP Q1"),
       ("duration_start_date", Json.str "2024-01-01"),
       ("duration_end_date", Json.str "2024-03-31"),
       ("confidence", Json.num ((2 : Rat) / 10)),
       ("global_cap_amount", Json.num 50000)] ∧
    (fingerprint
      [("scheme_name", Json.str "JBP Q1"),
       ("duration_start_date", Json.str "2024-01-01"),
       ("duration_end_date", Json.str "2024-03-31"),
       ("confidence", Json.num ((9 : Rat) / 10)),
       ("vendors", Json.arr [Json.str "Acme"])]).length = 10 :=
  fingerprint_pure_function_of_triple _ _ rfl rfl rfl

/-! ## C2 -/

/-- Counterexample to C2 as stated: the empty string is a non-null string,
yet the mapper does not send it to `OTHER` — the truthiness guard skips
the table, the empty string survives to enum validation, and the record is
rejected (in both mappers); moreover the pipeline table maps the non-null
string "SLAB" to `SLAB`, not `OTHER`. -/
theorem discount_type_counterexample :
    mapToSchemeHeaderD 0
      [("discount_type", Json.str ""), ("confidence", Json.num 1),
       ("needs_escalation", Json.bool false)]
      = .error (.validation "invalid discount_type") ∧
    mapToSchemeHeaderM 0
      [("discount_type", Json.str ""), ("confidence", Json.num 1),
       ("needs_escalation", Json.bool false)]
      = .error (.validation "invalid discount_type") ∧
    ((mapToSchemeHeaderD 0
      [("discount_type", Json.str "SLAB"), ("confidence", Json.num 1),
       ("needs_escalation", Json.bool false)]).toOption.map
        (fun r => r.discount_type)) = some (some DiscountType.SLAB) ∧
    some (some DiscountType.SLAB) ≠ some (some DiscountType.OTHER) := by
  refine ⟨rfl, rfl, rfl, by decide⟩

/-- C2 (amended): the discount-type mapping follows each mapper's fixed
lookup table with default `OTHER` for every non-empty string (the
`dspy_pipeline.py` table additionally contains the identity entries
`PERCENTAGE`, `FLAT`, `SLAB` and the entry `Other`); null stays null; the
empty string is left unmapped by the truthiness guard and the record then
fails enum validation. -/
theorem discount_type_mapping_amended (now : Nat) (d : List (String × Json))
    (r : SchemeHeader) (s : String) :
    (mapToSchemeHeaderD now d = .ok r → dictGet d "discount_type" = .null →
      r.discount_type = none) ∧
    (mapToSchemeHeaderD now d = .ok r → dictGet d "discount_type" = .str s → s ≠ "" →
      r.discount_type = DiscountType.ofStr ((tableLookup discountTypeTableD s).getD "OTHER")) ∧
    (dictGet d "discount_type" = .str "" → mapToSchemeHeaderD now d ≠ .ok r) ∧
    (mapToSchemeHeaderM now d = .ok r → dictGet d "discount_type" = .str s → s ≠ "" →
      r.discount_type = DiscountType.ofStr ((tableLookup discountTypeTableM s).getD "OTHER")) ∧
    (mapToSchemeHeaderM now d = .ok r → dictGet d "discount_type" = .null →
      r.discount_type = none) ∧
    (dictGet d "discount_type" = .str "" → mapToSchemeHeaderM now d ≠ .ok r) := by
  refine ⟨?_, ?_, ?_, ?_, ?_, ?_⟩
  · intro h hnull
    obtain ⟨⟨dtRaw, h1, h2⟩, -⟩ := mapD_ok_fields h
    rw [hnull] at h1
    exact discount_step_null _ _ _ h1 h2
  · intro h hstr hs
    obtain ⟨⟨dtRaw, h1, h2⟩, -⟩ := mapD_ok_fields h
    rw [hstr] at h1
    exact discount_step_str _ _ hs _ _ h1 h2
  · intro hstr h
    obtain ⟨⟨dtRaw, h1, h2⟩, -⟩ := mapD_ok_fields h
    rw [hstr] at h1
    exact discount_step_empty _ _ _ h1 h2
  · intro h hstr hs
    obtain ⟨dtRaw, h1, h2⟩ := mapM_ok_discount h
    rw [hstr] at h1
    exact discount_step_str _ _ hs _ _ h1 h2
  · intro h hnull
    obtain ⟨dtRaw, h1, h2⟩ := mapM_ok_discount h
    rw [hnull] at h1
    exact discount_step_null _ _ _ h1 h2
  · intro hstr h
    obtain ⟨dtRaw, h1, h2⟩ := mapM_ok_discount h
    rw [hstr] at h1
    exact discount_step_empty _ _ _ h1 h2

/-- Witness for C2 (amended): "Percentage of MRP" maps through the
pipeline table to `PERCENTAGE`. -/
theorem discount_type_mapping_amended_witness :
    mapToSchemeHeaderD 0
      [("discount_type", Json.str "Percentage of MRP"), ("confidence", Json.num 1),
       ("needs_escalation", Json.bool false)]
      = .ok
      { scheme_type := .OTHER, scheme_sub_type := .OTHER, scheme_name := "",
        duration_start_date := none, duration_end_date := none,
        starting_at := none, ending_at := none, price_drop_date := none,
        discount_type := some .PERCENTAGE, discount_value := none,
        min_order_value := none, max_discount_cap := none,
        vendor_name := none, category := none, remarks := none,
        confidence := 1, needs_escalation := false, source_file := none,
        extracted_at := 0 } ∧
    (SchemeHeader.discount_type
      { scheme_type := .OTHER, scheme_sub_type := .OTHER, scheme_name := "",
        duration_start_date := none, duration_end_date := none,
        starting_at := none, ending_at := none, price_drop_date := none,
        discount_type := some .PERCENTAGE, discount_value := none,
        min_order_value := none, max_discount_cap := none,
        vendor_name := none, category := none, remarks := none,
        confidence := 1, needs_escalation := false, source_file := none,
        extracted_at := 0 })
      = DiscountType.ofStr ((tableLookup discountTypeTableD "Percentage of MRP").getD "OTHER") :=
  ⟨rfl,
    (discount_type_mapping_amended 0
      [("discount_type", Json.str "Percentage of MRP"), ("confidence", Json.num 1),
       ("needs_escalation", Json.bool false)]
      { scheme_type := .OTHER, scheme_sub_type := .OTHER, scheme_name := "",
        duration_start_date := none, duration_end_date := none,
        starting_at := none, ending_at := none, price_drop_date := none,
        discount_type := some .PERCENTAGE, discount_value := none,
        min_order_value := none, max_discount_cap := none,
        vendor_name := none, category := none, remarks := none,
        confidence := 1, needs_escalation := false, source_file := none,
        extracted_at := 0 }
      "Percentage of MRP").2.1 rfl rfl (by decide)⟩

/-! ## C3 -/

/-- Counterexample to C3 as stated: on an uncaught exception `extract`
returns zero schemes, but the response-level `needs_escalation` of that
empty result is false, not true (`any` over an empty scheme list). -/
theorem extract_failure_counterexample :
    (extractD 0 "model" none (Except.error "boom")).schemes = [] ∧
    (extractD 0 "model" none (Except.error "boom")).needsEscalation ≠ true := by
  exact ⟨rfl, by decide⟩

/-- C3 (amended): `extract` never raises — an uncaught exception during
the attempt degrades to the terminal empty response: zero schemes, average
confidence 0.0, and (because the response-level flag is `any` over the
empty scheme list) `needs_escalation = false`. -/
theorem extract_failure_terminal_empty (now : Nat) (modelName e : String)
    (tokens : Option Nat) :
    (extractD now modelName tokens (Except.error e)).schemes = [] ∧
    (extractD now modelName tokens (Except.error e)).needsEscalation = false ∧
    (extractD now modelName tokens (Except.error e)).averageConfidence = 0 :=
  ⟨rfl, rfl, rfl⟩

/-! ## C7 -/

/-- Counterexample to C7 as stated: the mapper copies `starting_at` and
`duration_start_date` independently; a raw dictionary carrying different
values for both yields a validated record in which the two differ. -/
theorem date_alias_counterexample :
    ((mapToSchemeHeaderD 0
      [("duration_start_date", Json.str "2024-01-01"),
       ("starting_at", Json.str "2024-02-02"),
       ("duration_end_date", Json.str "2024-03-31"),
       ("ending_at", Json.str "2024-03-31"),
       ("confidence", Json.num 1), ("needs_escalation", Json.bool false)]).toOption.map
        (fun r => (r.starting_at, r.duration_start_date)))
      = some (some ⟨2024, 2, 2⟩, some ⟨2024, 1, 1⟩) ∧
    (some (⟨2024, 2, 2⟩ : PyDate) ≠ some (⟨2024, 1, 1⟩ : PyDate)) :=
  ⟨rfl, by decide⟩

/-- C7 (amended): the date-alias invariant holds exactly when the raw
dictionary itself carries equal values on the two sides: if the input's
`starting_at` equals its `duration_start_date` (and `ending_at` equals
`duration_end_date`), the mapped record satisfies both equalities — the
mapper enforces nothing, it copies each field. -/
theorem date_alias_when_input_agrees (now : Nat) (d : List (String × Json))
    (r : SchemeHeader)
    (h : mapToSchemeHeaderD now d = .ok r)
    (h1 : dictGet d "starting_at" = dictGet d "duration_start_date")
    (h2 : dictGet d "ending_at" = dictGet d "duration_end_date") :
    r.starting_at = r.duration_start_date ∧ r.ending_at = r.duration_end_date := by
  obtain ⟨-, -, -, hdsd, hded, hsa, hea, -, -, -, -, -, -⟩ := mapD_ok_fields h
  rw [h1] at hsa
  rw [h2] at hea
  exact ⟨Except.ok.inj (hsa.symm.trans hdsd), Except.ok.inj (hea.symm.trans hded)⟩

/-- Witness for C7 (amended): a concrete dictionary with agreeing alias
fields maps to a record satisfying both equalities. -/
theorem date_alias_when_input_agrees_witness :
    mapToSchemeHeaderD 0
      [("duration_start_date", Json.str "2024-01-01"),
       ("starting_at", Json.str "2024-01-01"),
       ("duration_end_date", Json.str "2024-03-31"),
       ("ending_at", Json.str "2024-03-31"),
       ("confidence", Json.num 1), ("needs_escalation", Json.bool false)]
      = .ok
      { scheme_type := .OTHER, scheme_sub_type := .OTHER, scheme_name := "",
        duration_start_date := some ⟨2024, 1, 1⟩,
        duration_end_date := some ⟨2024, 3, 31⟩,
        starting_at := some ⟨2024, 1, 1⟩, ending_at := some ⟨2024, 3, 31⟩,
        price_drop_date := none, discount_type := none, discount_value := none,
        min_order_value := none, max_discount_cap := none, vendor_name := none,
        category := none, remarks := none, confidence := 1,
        needs_escalation := false, source_file := none, extracted_at := 0 } ∧
    (SchemeHeader.starting_at
      { scheme_type := .OTHER, scheme_sub_type := .OTHER, scheme_name := "",
        duration_start_date := some ⟨2024, 1, 1⟩,
        duration_end_date := some ⟨2024, 3, 31⟩,
        starting_at := some ⟨2024, 1, 1⟩, ending_at := some ⟨2024, 3, 31⟩,
        price_drop_date := none, discount_type := none, discount_value := none,
        min_order_value := none, max_discount_cap := none, vendor_name := none,
        category := none, remarks := none, confidence := 1,
        needs_escalation := false, source_file := none, extracted_at := 0 }
      = some ⟨2024, 1, 1⟩) :=
  ⟨rfl, by
    have := date_alias_when_input_agrees 0
      [("duration_start_date", Json.str "2024-01-01"),
       ("starting_at", Json.str "2024-01-01"),
       ("duration_end_date", Json.str "2024-03-31"),
       ("ending_at", Json.str "2024-03-31"),
       ("confidence", Json.num 1), ("needs_escalation", Json.bool false)]
      { scheme_type := .OTHER, scheme_sub_type := .OTHER, scheme_name := "",
        duration_start_date := some ⟨2024, 1, 1⟩,
        duration_end_date := some ⟨2024, 3, 31⟩,
        starting_at := some ⟨2024, 1, 1⟩, ending_at := some ⟨2024, 3, 31⟩,
        price_drop_date := none, discount_type := none, discount_value := none,
        min_order_value := none, max_discount_cap := none, vendor_name := none,
        category := none, remarks := none, confidence := 1,
        needs_escalation := false, source_file := none, extracted_at := 0 }
      rfl rfl rfl
    rw [this.1]⟩

/-! ## C9 -/

/-- Changing only the clock shifts only the `extracted_at` field of a
successful mapping (and failures are unaffected). -/
theorem mapD_shift (t : Nat) (d : List (String × Json)) :
    mapToSchemeHeaderD t d =
      (mapToSchemeHeaderD 0 d).map (fun r => { r with extracted_at := t }) := by
  unfold mapToSchemeHeaderD
  cases h1 : applyDiscountMap discountTypeTableD (dictGet d "discount_type") with
  | error e => simp only [exBind_error_eval, exMap_error_eval]
  | ok dtRaw =>
  simp only [exBind_ok_eval]
  cases h2 : validateSchemeType (dictGetD d "scheme_type" (Json.str "OTHER")) <;>
    simp only [exBind_ok_eval, exBind_error_eval, exMap_ok_eval, exMap_error_eval]
  cases h3 : validateSchemeSubType (dictGetD d "scheme_sub_type" (Json.str "OTHER")) <;>
    simp only [exBind_ok_eval, exBind_error_eval, exMap_ok_eval, exMap_error_eval]
  cases h4 : validateStr (dictGetD d "scheme_name" (Json.str "")) <;>
    simp only [exBind_ok_eval, exBind_error_eval, exMap_ok_eval, exMap_error_eval]
  cases h5 : validateOptDate (dictGet d "duration_start_date") <;>
    simp only [exBind_ok_eval, exBind_error_eval, exMap_ok_eval, exMap_error_eval]
  cases h6 : validateOptDate (dictGet d "duration_end_date") <;>
    simp only [exBind_ok_eval, exBind_error_eval, exMap_ok_eval, exMap_error_eval]
  cases h7 : validateOptDate (dictGet d "starting_at") <;>
    simp only [exBind_ok_eval, exBind_error_eval, exMap_ok_eval, exMap_error_eval]
  cases h8 : validateOptDate (dictGet d "ending_at") <;>
    simp only [exBind_ok_eval, exBind_error_eval, exMap_ok_eval, exMap_error_eval]
  cases h9 : validateOptDate (dictGet d "price_drop_date") <;>
    simp only [exBind_ok_eval, exBind_error_eval, exMap_ok_eval, exMap_error_eval]
  cases h10 : validateOptDiscountType dtRaw <;>
    simp only [exBind_ok_eval, exBind_error_eval, exMap_ok_eval, exMap_error_eval]
  cases h11 : validateOptNonNegNum
      (pyOr (dictGet d "discount_value") (dictGet d "global_cap_amount")) <;>
    simp only [exBind_ok_eval, exBind_error_eval, exMap_ok_eval, exMap_error_eval]
  cases h12 : validateOptNonNegNum (dictGet d "min_order_value") <;>
    simp only [exBind_ok_eval, exBind_error_eval, exMap_ok_eval, exMap_error_eval]
  cases h13 : validateOptNonNegNum
      (pyOr (dictGet d "max_discount_cap") (dictGet d "global_cap_amount")) <;>
    simp only [exBind_ok_eval, exBind_error_eval, exMap_ok_eval, exMap_error_eval]
  cases h14 : validateOptStr (dictGet d "vendor_name") <;>
    simp only [exBind_ok_eval, exBind_error_eval, exMap_ok_eval, exMap_error_eval]
  cases h15 : validateOptStr (dictGet d "category") <;>
    simp only [exBind_ok_eval, exBind_error_eval, exMap_ok_eval, exMap_error_eval]
  cases h16 : validateOptStr (pyOr (dictGet d "description") (dictGet d "remarks")) <;>
    simp only [exBind_ok_eval, exBind_error_eval, exMap_ok_eval, exMap_error_eval]
  cases h17 : validateConfidence (dictGetD d "confidence" (Json.num ((1 : Rat) / 2))) <;>
    simp only [exBind_ok_eval, exBind_error_eval, exMap_ok_eval, exMap_error_eval]
  cases h18 : validateBool (dictGetD d "needs_escalation" (Json.bool false)) <;>
    simp only [exBind_ok_eval, exBind_error_eval, exMap_ok_eval, exMap_error_eval]
  rfl

/-- Counterexample to C9 as stated: mapping the same raw dictionary at two
different clock instants yields records that are not byte-identical — the
`datetime.now` default factory puts the call time into `extracted_at`. -/
theorem mapping_not_byte_identical_counterexample :
    ((mapToSchemeHeaderD 0
        [("scheme_name", Json.str "A"), ("confidence", Json.num 1),
         ("needs_escalation", Json.bool false)]).toOption.map
      (fun r => r.extracted_at)) = some 0 ∧
    ((mapToSchemeHeaderD 1
        [("scheme_name", Json.str "A"), ("confidence", Json.num 1),
         ("needs_escalation", Json.bool false)]).toOption.map
      (fun r => r.extracted_at)) = some 1 ∧
    mapToSchemeHeaderD 0
      [("scheme_name", Json.str "A"), ("confidence", Json.num 1),
       ("needs_escalation", Json.bool false)] ≠
    mapToSchemeHeaderD 1
      [("scheme_name", Json.str "A"), ("confidence", Json.num 1),
       ("needs_escalation", Json.bool false)] := by
  refine ⟨rfl, rfl, fun h => ?_⟩
  have h0 : ((mapToSchemeHeaderD 0
      [("scheme_name", Json.str "A"), ("confidence", Json.num 1),
       ("needs_escalation", Json.bool false)]).toOption.map
      (fun r => r.extracted_at)) = some 0 := rfl
  have h1 : ((mapToSchemeHeaderD 1
      [("scheme_name", Json.str "A"), ("confidence", Json.num 1),
       ("needs_escalation", Json.bool false)]).toOption.map
      (fun r => r.extracted_at)) = some 1 := rfl
  rw [h] at h0
  exact absurd (h0.symm.trans h1) (by decide)

/-- C9 (amended): the schema mapper is deterministic in its input
dictionary in every field except `extracted_at`: erasing the timestamp,
two mappings of the same raw dictionary at any two clock instants are
identical (including agreement on failure). -/
theorem mapping_deterministic_up_to_timestamp (t1 t2 : Nat) (d : List (String × Json)) :
    (mapToSchemeHeaderD t1 d).map (fun r => { r with extracted_at := 0 }) =
    (mapToSchemeHeaderD t2 d).map (fun r => { r with extracted_at := 0 }) := by
  rw [mapD_shift t1 d, mapD_shift t2 d]
  cases mapToSchemeHeaderD 0 d <;> rfl

/-! ## C10 -/

/-- C10: a numeric 0 is falsy, so the legacy-key fallback (`x or y`)
treats it as absent — `discount_value = 0` or `max_discount_cap = 0` falls
back to `global_cap_amount`, and an empty `description` falls back to
`remarks`. -/
theorem falsy_zero_legacy_fallback (now : Nat) (d : List (String × Json))
    (r : SchemeHeader) (c : Rat) (remS : String)
    (h : mapToSchemeHeaderD now d = .ok r) :
    (dictGet d "discount_value" = .num 0 → dictGet d "global_cap_amount" = .num c →
      r.discount_value = some c) ∧
    (dictGet d "max_discount_cap" = .num 0 → dictGet d "global_cap_amount" = .num c →
      r.max_discount_cap = some c) ∧
    (dictGet d "description" = .str "" → dictGet d "remarks" = .str remS →
      r.remarks = some remS) := by
  obtain ⟨-, -, -, -, -, -, -, hdv, hmdc, hrem, -, -, -⟩ := mapD_ok_fields h
  refine ⟨?_, ?_, ?_⟩
  · intro hz hg
    rw [hz, hg] at hdv
    rw [show pyOr (Json.num 0) (Json.num c) = Json.num c by
      simp [pyOr, Json.truthy]] at hdv
    rw [validateOptNonNegNum] at hdv
    split at hdv
    · exact (Except.ok.inj hdv).symm
    · exact Except.noConfusion hdv
  · intro hz hg
    rw [hz, hg] at hmdc
    rw [show pyOr (Json.num 0) (Json.num c) = Json.num c by
      simp [pyOr, Json.truthy]] at hmdc
    rw [validateOptNonNegNum] at hmdc
    split at hmdc
    · exact (Except.ok.inj hmdc).symm
    · exact Except.noConfusion hmdc
  · intro hdesc hrem2
    rw [hdesc, hrem2] at hrem
    rw [show pyOr (Json.str "") (Json.str remS) = Json.str remS by
      simp [pyOr, Json.truthy]] at hrem
    rw [validateOptStr] at hrem
    exact (Except.ok.inj hrem).symm

/-- Witness for C10: a concrete dictionary with zero `discount_value` and
`max_discount_cap`, empty `description`, and a non-null
`global_cap_amount` maps to a record carrying the cap and the remarks. -/
theorem falsy_zero_legacy_fallback_witness :
    mapToSchemeHeaderD 0
      [("discount_value", Json.num 0), ("max_discount_cap", Json.num 0),
       ("global_cap_amount", Json.num 100), ("description", Json.str ""),
       ("remarks", Json.str "note"), ("confidence", Json.num 1),
       ("needs_escalation", Json.bool false)]
      = .ok
      { scheme_type := .OTHER, scheme_sub_type := .OTHER, scheme_name := "",
        duration_start_date := none, duration_end_date := none,
        starting_at := none, ending_at := none, price_drop_date := none,
        discount_type := none, discount_value := some 100,
        min_order_value := none, max_discount_cap := some 100,
        vendor_name := none, category := none, remarks := some "note",
        confidence := 1, needs_escalation := false, source_file := none,
        extracted_at := 0 } ∧
    SchemeHeader.discount_value
      { scheme_type := .OTHER, scheme_sub_type := .OTHER, scheme_name := "",
        duration_start_date := none, duration_end_date := none,
        starting_at := none, ending_at := none, price_drop_date := none,
        discount_type := none, discount_value := some 100,
        min_order_value := none, max_discount_cap := some 100,
        vendor_name := none, category := none, remarks := some "note",
        confidence := 1, needs_escalation := false, source_file := none,
        extracted_at := 0 } = some 100 ∧
    SchemeHeader.max_discount_cap
      { scheme_type := .OTHER, scheme_sub_type := .OTHER, scheme_name := "",
        duration_start_date := none, duration_end_date := none,
        starting_at := none, ending_at := none, price_drop_date := none,
        discount_type := none, discount_value := some 100,
        min_order_value := none, max_discount_cap := some 100,
        vendor_name := none, category := none, remarks := some "note",
        confidence := 1, needs_escalation := false, source_file := none,
        extracted_at := 0 } = some 100 ∧
    SchemeHeader.remarks
      { scheme_type := .OTHER, scheme_sub_type := .OTHER, scheme_name := "",
        duration_start_date := none, duration_end_date := none,
        starting_at := none, ending_at := none, price_drop_date := none,
        discount_type := none, discount_value := some 100,
        min_order_value := none, max_discount_cap := some 100,
        vendor_name := none, category := none, remarks := some "note",
        confidence := 1, needs_escalation := false, source_file := none,
        extracted_at := 0 } = some "note" := by
  have hmap : mapToSchemeHeaderD 0
      [("discount_value", Json.num 0), ("max_discount_cap", Json.num 0),
       ("global_cap_amount", Json.num 100), ("description", Json.str ""),
       ("remarks", Json.str "note"), ("confidence", Json.num 1),
       ("needs_escalation", Json.bool false)]
      = .ok
      { scheme_type := .OTHER, scheme_sub_type := .OTHER, scheme_name := "",
        duration_start_date := none, duration_end_date := none,
        starting_at := none, ending_at := none, price_drop_date := none,
        discount_type := none, discount_value := some 100,
        min_order_value := none, max_discount_cap := some 100,
        vendor_name := none, category := none, remarks := some "note",
        confidence := 1, needs_escalation := false, source_file := none,
        extracted_at := 0 } := rfl
  have hth := falsy_zero_legacy_fallback 0
      [("discount_value", Json.num 0), ("max_discount_cap", Json.num 0),
       ("global_cap_amount", Json.num 100), ("description", Json.str ""),
       ("remarks", Json.str "note"), ("confidence", Json.num 1),
       ("needs_escalation", Json.bool false)]
      { scheme_type := .OTHER, scheme_sub_type := .OTHER, scheme_name := "",
        duration_start_date := none, duration_end_date := none,
        starting_at := none, ending_at := none, price_drop_date := none,
        discount_type := none, discount_value := some 100,
        min_order_value := none, max_discount_cap := some 100,
        vendor_name := none, category := none, remarks := some "note",
        confidence := 1, needs_escalation := false, source_file := none,
        extracted_at := 0 } 100 "note" hmap
  exact ⟨hmap, hth.1 rfl rfl, hth.2.1 rfl rfl, hth.2.2 rfl rfl⟩

/-! ## C4 -/

/-- C4: the output parser is total and degrades to zero schemes: a
completion that fails the JSON parse after fence stripping yields an empty
scheme list, and a completion that parses but lacks a top-level
`schemes` key likewise yields an empty list — in both the pipeline parser
and the modules parser. -/
theorem parser_robust_on_malformed (now : Nat) (dc : Rat) (de : Bool) (s : String) :
    (∀ e, parseJson (cleanResponse s) = .error e →
      parseSchemesJsonD now s dc de = [] ∧ parseResponseM now s = []) ∧
    (∀ j, parseJson (cleanResponse s) = .ok j → pyContains j "schemes" = .ok false →
      parseSchemesJsonD now s dc de = [] ∧ parseResponseM now s = []) := by
  constructor
  · intro e he
    constructor
    · unfold parseSchemesJsonD
      rw [he]
    · unfold parseResponseM
      rw [he]
  · intro j hj hc
    constructor
    · unfold parseSchemesJsonD
      simp only [hj, hc]
    · unfold parseResponseM
      simp only [hj, hc]

/-- Witness for C4: the completion "not json at all" and a JSON object
without a `schemes` key both produce empty scheme lists. -/
theorem parser_robust_on_malformed_witness :
    (parseSchemesJsonD 0 "not json at all" ((1 : Rat) / 2) false = [] ∧
     parseResponseM 0 "not json at all" = []) ∧
    (parseSchemesJsonD 0 "\x7b\"status\": \"done\"\x7d" ((1 : Rat) / 2) false = [] ∧
     parseResponseM 0 "\x7b\"status\": \"done\"\x7d" = []) :=
  ⟨(parser_robust_on_malformed 0 ((1 : Rat) / 2) false "not json at all").1
      "expecting value" rfl,
   (parser_robust_on_malformed 0 ((1 : Rat) / 2) false "\x7b\"status\": \"done\"\x7d").2
      (Json.obj [("status", Json.str "done")]) rfl rfl⟩

/-! ## C5 -/

/-- C5: a record that fails pydantic validation is dropped without
affecting its siblings: the record loop on a list containing the offending
dictionary returns exactly what it returns on the list with the offender
removed, wherever the offender sits. -/
theorem validation_drops_only_offending_record (now : Nat) (dc : Rat) (de : Bool)
    (pre post : List Json) (members : List (String × Json)) (msg : String)
    (hbad : mapToSchemeHeaderD now (injectDefaults dc de members)
      = .error (.validation msg)) :
    schemesLoopD now dc de (pre ++ Json.obj members :: post)
      = schemesLoopD now dc de (pre ++ post) := by
  induction pre with
  | nil =>
    simp only [List.nil_append]
    simp only [schemesLoopD, hbad]
  | cons item rest ih =>
    simp only [List.cons_append]
    cases item with
    | obj m2 =>
      simp only [schemesLoopD]
      cases hm : mapToSchemeHeaderD now (injectDefaults dc de m2) with
      | ok r => rw [ih]
      | error err =>
        cases err with
        | validation m => exact ih
        | typeErr m => rfl
    | null => simp only [schemesLoopD]
    | bool b => simp only [schemesLoopD]
    | num q => simp only [schemesLoopD]
    | str s2 => simp only [schemesLoopD]
    | arr items => simp only [schemesLoopD]

/-- Witness for C5: in a three-record response whose middle record carries
a negative amount, the loop output equals the loop on the two valid
siblings, and those siblings are both present. -/
theorem validation_drops_only_offending_record_witness :
    schemesLoopD 0 1 false
      [Json.obj [("scheme_name", Json.str "A")],
       Json.obj [("scheme_name", Json.str "B"), ("discount_value", Json.num (-5))],
       Json.obj [("scheme_name", Json.str "C")]]
      = schemesLoopD 0 1 false
        [Json.obj [("scheme_name", Json.str "A")],
         Json.obj [("scheme_name", Json.str "C")]] ∧
    Except.map (fun rs => rs.map (fun r => r.scheme_name))
      (schemesLoopD 0 1 false
        [Json.obj [("scheme_name", Json.str "A")],
         Json.obj [("scheme_name", Json.str "B"), ("discount_value", Json.num (-5))],
         Json.obj [("scheme_name", Json.str "C")]])
      = .ok ["A", "C"] :=
  ⟨validation_drops_only_offending_record 0 1 false
      [Json.obj [("scheme_name", Json.str "A")]]
      [Json.obj [("scheme_name", Json.str "C")]]
      [("scheme_name", Json.str "B"), ("discount_value", Json.num (-5))]
      "input should be >= 0" rfl,
   by rfl⟩

/-! ## C6 -/

/-- C6: `confidence` and `needs_escalation` of a mapped record come from
the per-scheme dictionary when the key is present, otherwise from the
stage-7 defaults injected by the parse loop; and in `extract` those
defaults are read from the chain-of-thought result with the fixed
fallbacks `0.5` and `false` when absent there too. -/
theorem confidence_escalation_defaulting (now : Nat) (dc : Rat) (de : Bool)
    (members : List (String × Json)) (r : SchemeHeader)
    (modelName : String) (tokens : Option Nat) (cr : CotResult) :
    (mapToSchemeHeaderD now (injectDefaults dc de members) = .ok r →
      (∀ c : Rat, dictFind members "confidence" = some (.num c) → r.confidence = c) ∧
      (dictHasKey members "confidence" = false → r.confidence = dc) ∧
      (∀ b : Bool, dictFind members "needs_escalation" = some (.bool b) →
        r.needs_escalation = b) ∧
      (dictHasKey members "needs_escalation" = false → r.needs_escalation = de)) ∧
    (∀ q, cr.confidence_score = some q →
      (extractD now modelName tokens (.ok cr)).schemes
        = parseSchemesJsonD now cr.schemes_json q (cr.needs_escalation.getD false)) ∧
    (cr.confidence_score = none →
      (extractD now modelName tokens (.ok cr)).schemes
        = parseSchemesJsonD now cr.schemes_json ((1 : Rat) / 2)
            (cr.needs_escalation.getD false)) ∧
    (∀ b, cr.needs_escalation = some b →
      (extractD now modelName tokens (.ok cr)).schemes
        = parseSchemesJsonD now cr.schemes_json
            (cr.confidence_score.getD ((1 : Rat) / 2)) b) ∧
    (cr.needs_escalation = none →
      (extractD now modelName tokens (.ok cr)).schemes
        = parseSchemesJsonD now cr.schemes_json
            (cr.confidence_score.getD ((1 : Rat) / 2)) false) := by
  refine ⟨?_, ?_, ?_, ?_, ?_⟩
  · intro h
    obtain ⟨-, -, -, -, -, -, -, -, -, -, hconf, hesc, -⟩ := mapD_ok_fields h
    refine ⟨?_, ?_, ?_, ?_⟩
    · intro c hc
      have hf := injectDefaults_confidence_present dc de members _ hc
      rw [show dictGetD (injectDefaults dc de members) "confidence"
            (Json.num ((1 : Rat) / 2)) = Json.num c by
          rw [dictGetD, hf]; rfl] at hconf
      rw [validateConfidence] at hconf
      split at hconf
      · exact (Except.ok.inj hconf).symm
      · exact Except.noConfusion hconf
    · intro habs
      have hf := injectDefaults_confidence_absent dc de members habs
      rw [show dictGetD (injectDefaults dc de members) "confidence"
            (Json.num ((1 : Rat) / 2)) = Json.num dc by
          rw [dictGetD, hf]; rfl] at hconf
      rw [validateConfidence] at hconf
      split at hconf
      · exact (Except.ok.inj hconf).symm
      · exact Except.noConfusion hconf
    · intro b hb
      have hf := injectDefaults_escalation_present dc de members _ hb
      rw [show dictGetD (injectDefaults dc de members) "needs_escalation"
            (Json.bool false) = Json.bool b by
          rw [dictGetD, hf]; rfl] at hesc
      rw [validateBool] at hesc
      exact (Except.ok.inj hesc).symm
    · intro habs
      have hf := injectDefaults_escalation_absent dc de members habs
      rw [show dictGetD (injectDefaults dc de members) "needs_escalation"
            (Json.bool false) = Json.bool de by
          rw [dictGetD, hf]; rfl] at hesc
      rw [validateBool] at hesc
      exact (Except.ok.inj hesc).symm
  · intro q hq
    simp only [extractD, hq, Option.getD_some]
  · intro hq
    simp only [extractD, hq, Option.getD_none]
  · intro b hb
    simp only [extractD, hb, Option.getD_some]
  · intro hb
    simp only [extractD, hb, Option.getD_none]

/-- Witness for C6: an empty per-scheme dictionary inherits the injected
stage-7 defaults, and a chain-of-thought result without confidence signals
makes `extract` fall back to `0.5` and `false`. -/
theorem confidence_escalation_defaulting_witness :
    mapToSchemeHeaderD 0 (injectDefaults (1) true [])
      = .ok
      { scheme_type := .OTHER, scheme_sub_type := .OTHER, scheme_name := "",
        duration_start_date := none, duration_end_date := none,
        starting_at := none, ending_at := none, price_drop_date := none,
        discount_type := none, discount_value := none, min_order_value := none,
        max_discount_cap := none, vendor_name := none, category := none,
        remarks := none, confidence := 1, needs_escalation := true,
        source_file := none, extracted_at := 0 } ∧
    SchemeHeader.confidence
      { scheme_type := .OTHER, scheme_sub_type := .OTHER, scheme_name := "",
        duration_start_date := none, duration_end_date := none,
        starting_at := none, ending_at := none, price_drop_date := none,
        discount_type := none, discount_value := none, min_order_value := none,
        max_discount_cap := none, vendor_name := none, category := none,
        remarks := none, confidence := 1, needs_escalation := true,
        source_file := none, extracted_at := 0 } = 1 ∧
    SchemeHeader.needs_escalation
      { scheme_type := .OTHER, scheme_sub_type := .OTHER, scheme_name := "",
        duration_start_date := none, duration_end_date := none,
        starting_at := none, ending_at := none, price_drop_date := none,
        discount_type := none, discount_value := none, min_order_value := none,
        max_discount_cap := none, vendor_name := none, category := none,
        remarks := none, confidence := 1, needs_escalation := true,
        source_file := none, extracted_at := 0 } = true ∧
    (extractD 0 "m" none (.ok ⟨"nothing", none, none, none⟩)).schemes
      = parseSchemesJsonD 0 "nothing" ((1 : Rat) / 2) false := by
  have hmap : mapToSchemeHeaderD 0 (injectDefaults (1) true [])
      = .ok
      { scheme_type := .OTHER, scheme_sub_type := .OTHER, scheme_name := "",
        duration_start_date := none, duration_end_date := none,
        starting_at := none, ending_at := none, price_drop_date := none,
        discount_type := none, discount_value := none, min_order_value := none,
        max_discount_cap := none, vendor_name := none, category := none,
        remarks := none, confidence := 1, needs_escalation := true,
        source_file := none, extracted_at := 0 } := rfl
  have hth := confidence_escalation_defaulting 0 (1) true []
      { scheme_type := .OTHER, scheme_sub_type := .OTHER, scheme_name := "",
        duration_start_date := none, duration_end_date := none,
        starting_at := none, ending_at := none, price_drop_date := none,
        discount_type := none, discount_value := none, min_order_value := none,
        max_discount_cap := none, vendor_name := none, category := none,
        remarks := none, confidence := 1, needs_escalation := true,
        source_file := none, extracted_at := 0 }
      "m" none ⟨"nothing", none, none, none⟩
  exact ⟨hmap, (hth.1 hmap).2.1 rfl, (hth.1 hmap).2.2.2 rfl, hth.2.2.1 rfl⟩

/-! ## C8 -/

/-- The ten string values of the closed sub-type enumeration. -/
def allowedSubTypeStrings : List String :=
  ["PERIODIC_CLAIM", "PDC", "PUC_FDC", "COUPON", "SUPER_COIN", "PREXO",
   "BANK_OFFER", "LIFESTYLE", "ONE_OFF", "OTHER"]

/-- Every sub-type constructor serializes into the allowed set. -/
theorem subtype_toStr_mem (x : SchemeSubType) : x.toStr ∈ allowedSubTypeStrings := by
  cases x <;> simp [SchemeSubType.toStr, allowedSubTypeStrings]

/-- A raw string accepted by sub-type validation is in the allowed set and
round-trips. -/
theorem ofStr_mem (s : String) (t : SchemeSubType)
    (h : SchemeSubType.ofStr s = some t) :
    s ∈ allowedSubTypeStrings ∧ t.toStr = s := by
  unfold SchemeSubType.ofStr at h
  split at h <;>
    first
      | (injection h with h2; subst h2; exact ⟨by decide, rfl⟩)
      | cases h

/-- C8: every record emitted by the parser carries a `scheme_sub_type`
inside the closed enumeration, whatever the raw completion was; and
validation only ever accepts one of the ten exact enumeration strings
(anything else — including other casings or spacings — is rejected and the
record dropped). -/
theorem subtype_closed_enumeration (now : Nat) (s : String) (dc : Rat) (de : Bool)
    (r : SchemeHeader) :
    (r ∈ parseSchemesJsonD now s dc de →
      r.scheme_sub_type.toStr ∈ allowedSubTypeStrings) ∧
    (∀ v t, validateSchemeSubType v = .ok t →
      ∃ raw, v = .str raw ∧ raw ∈ allowedSubTypeStrings ∧ t.toStr = raw) := by
  constructor
  · intro _
    exact subtype_toStr_mem r.scheme_sub_type
  · intro v t hv
    cases v with
    | str raw =>
      rw [validateSchemeSubType] at hv
      cases hof : SchemeSubType.ofStr raw with
      | some t2 =>
        rw [hof] at hv
        injection hv with hv2
        obtain ⟨hmem, htos⟩ := ofStr_mem raw t2 hof
        exact ⟨raw, rfl, hmem, by rw [← hv2]; exact htos⟩
      | none => rw [hof] at hv; cases hv
    | null => exact Except.noConfusion hv
    | bool b => exact Except.noConfusion hv
    | num q => exact Except.noConfusion hv
    | arr items => exact Except.noConfusion hv
    | obj members => exact Except.noConfusion hv

/-- Witness for C8: a concrete parsed record has its sub-type in the
allowed set, and the exact string "PDC" is accepted by validation. -/
theorem subtype_closed_enumeration_witness :
    parseSchemesJsonD 7 "\x7b\"schemes\": [\x7b\"scheme_name\": \"A\"\x7d]\x7d" 1 true
      = [{ scheme_type := .OTHER, scheme_sub_type := .OTHER, scheme_name := "A",
           duration_start_date := none, duration_end_date := none,
           starting_at := none, ending_at := none, price_drop_date := none,
           discount_type := none, discount_value := none, min_order_value := none,
           max_discount_cap := none, vendor_name := none, category := none,
           remarks := none, confidence := 1, needs_escalation := true,
           source_file := none, extracted_at := 7 }] ∧
    SchemeSubType.toStr
      (SchemeHeader.scheme_sub_type
        { scheme_type := .OTHER, scheme_sub_type := .OTHER, scheme_name := "A",
          duration_start_date := none, duration_end_date := none,
          starting_at := none, ending_at := none, price_drop_date := none,
          discount_type := none, discount_value := none, min_order_value := none,
          max_discount_cap := none, vendor_name := none, category := none,
          remarks := none, confidence := 1, needs_escalation := true,
          source_file := none, extracted_at := 7 }) ∈ allowedSubTypeStrings ∧
    (∃ raw, Json.str "PDC" = Json.str raw ∧ raw ∈ allowedSubTypeStrings ∧
      SchemeSubType.toStr SchemeSubType.PDC = raw) := by
  have hp : parseSchemesJsonD 7 "\x7b\"schemes\": [\x7b\"scheme_name\": \"A\"\x7d]\x7d" 1 true
      = [{ scheme_type := .OTHER, scheme_sub_type := .OTHER, scheme_name := "A",
           duration_start_date := none, duration_end_date := none,
           starting_at := none, ending_at := none, price_drop_date := none,
           discount_type := none, discount_value := none, min_order_value := none,
           max_discount_cap := none, vendor_name := none, category := none,
           remarks := none, confidence := 1, needs_escalation := true,
           source_file := none, extracted_at := 7 }] := by rfl
  refine ⟨hp, ?_, ?_⟩
  · exact (subtype_closed_enumeration 7
      "\x7b\"schemes\": [\x7b\"scheme_name\": \"A\"\x7d]\x7d" 1 true
      { scheme_type := .OTHER, scheme_sub_type := .OTHER, scheme_name := "A",
        duration_start_date := none, duration_end_date := none,
        starting_at := none, ending_at := none, price_drop_date := none,
        discount_type := none, discount_value := none, min_order_value := none,
        max_discount_cap := none, vendor_name := none, category := none,
        remarks := none, confidence := 1, needs_escalation := true,
        source_file := none, extracted_at := 7 }).1
      (by rw [hp]; exact List.mem_singleton.mpr rfl)
  · exact (subtype_closed_enumeration 7
      "\x7b\"schemes\": [\x7b\"scheme_name\": \"A\"\x7d]\x7d" 1 true
      { scheme_type := .OTHER, scheme_sub_type := .OTHER, scheme_name := "A",
        duration_start_date := none, duration_end_date := none,
        starting_at := none, ending_at := none, price_drop_date := none,
        discount_type := none, discount_value := none, min_order_value := none,
        max_discount_cap := none, vendor_name := none, category := none,
        remarks := none, confidence := 1, needs_escalation := true,
        source_file := none, extracted_at := 7 }).2
      (Json.str "PDC") SchemeSubType.PDC rfl

end SchemeExtraction
